import Mathlib

/-!
Verification of the generation-and-normalization pipeline of the
`upscai-prelims` repository.

The subsystem under study consists of
  * `lib/aiAnalysis.ts` — the types and `normalizeQuestionAnalysisV1`
    (the Normalizer), and
  * `lib/generateQuestionAnalysis.ts` — `cleanPointer`,
    `inferSourceFromText`, `sanitizeSource` (the Source Classifier),
    `analysisLooksWeak` (the Quality Gate), `buildPrompt`, `postProcess`
    (the Post-Processor) and `generateQuestionAnalysis`
    (the Retry Orchestrator).

The embedding models JavaScript runtime values by the inductive `JSValue`.
JavaScript numbers are modelled by `JNum`: `NaN`, the two infinities, and
finite values as exact rationals.  Every double is a (dyadic) rational and
every operation the pipeline performs on numbers (comparison with `0`,
`Number.isFinite`, `Math.min`/`Math.max` against `0`/`100`) is exact on
rationals, so the model is faithful on all reachable values.

Property access `a.b` throws a `TypeError` in JavaScript when `a` is
`null`/`undefined`; it is therefore modelled by the partial `dot`
(returning `Option`), while the guarded access `a?.b` is modelled by the
total `qdot`.  This keeps the "never throws" property of the Normalizer a
real statement rather than a tautology.

All string helpers below are written by structural recursion (over `List
Char` or over an explicit fuel that dominates the list length) so that
closed evaluations reduce inside the kernel.
-/

set_option maxHeartbeats 1000000
set_option maxRecDepth 100000

namespace UpscaiPrelims

/-! ## JavaScript numbers -/

/-- A JavaScript number: `NaN`, `Infinity`, `-Infinity`, or a finite value
(an exact rational; every finite double is one). -/
inductive JNum where
  | nan
  | posInf
  | negInf
  | fin (q : ℚ)
deriving DecidableEq

/-- Embedding of `Number.isFinite`. -/
def JNum.isFinite : JNum → Bool
  | .fin _ => true
  | _ => false

/-- The JavaScript comparison `x > 0` (`false` on `NaN`). -/
def JNum.gtZero : JNum → Bool
  | .fin q => decide (0 < q)
  | .posInf => true
  | _ => false

/-! ## JavaScript values -/

/- An arbitrary JSON-ish JavaScript runtime value.  Arrays and objects
carry their own (mutually inductive) spines so that every function below
can recurse structurally and hence reduce inside the kernel. -/
mutual
inductive JSValue where
  | null
  | undefined
  | bool (b : Bool)
  | num (n : JNum)
  | str (s : String)
  | arr (elems : JSList)
  | obj (fields : JSFields)
inductive JSList where
  | nil
  | cons (head : JSValue) (tail : JSList)
inductive JSFields where
  | fnil
  | fcons (key : String) (val : JSValue) (tail : JSFields)
end

/-- Build an array value from a `List`. -/
def jsListOf : List JSValue → JSList
  | [] => .nil
  | v :: vs => .cons v (jsListOf vs)

/-- Build an object value from an association list. -/
def jsFieldsOf : List (String × JSValue) → JSFields
  | [] => .fnil
  | (k, v) :: fs => .fcons k v (jsFieldsOf fs)

def JSList.toList : JSList → List JSValue
  | .nil => []
  | .cons v vs => v :: vs.toList

/-- Nullish coalescing `v ?? d`. -/
def nullishD (v d : JSValue) : JSValue :=
  match v with
  | .null => d
  | .undefined => d
  | _ => v

/-- JavaScript truthiness. -/
def JSValue.truthy : JSValue → Bool
  | .null => false
  | .undefined => false
  | .bool b => b
  | .num .nan => false
  | .num (.fin q) => !(q == 0)
  | .num _ => true
  | .str s => !(s == "")
  | .arr _ => true
  | .obj _ => true

/-- Object property lookup; with duplicate keys the last entry wins, as in
a JavaScript object literal. -/
def findField : JSFields → String → Option JSValue
  | .fnil, _ => none
  | .fcons k v t, key =>
    match findField t key with
    | some w => some w
    | none => if k == key then some v else none

/-- Total property access on a value already known not to be nullish.
Access on a primitive yields `undefined` (true in JavaScript for every key
this pipeline reads). -/
def dotTotal (v : JSValue) (k : String) : JSValue :=
  match v with
  | .obj fs => (findField fs k).getD .undefined
  | _ => .undefined

/-- Optional chaining `v?.k`. -/
def qdot (v : JSValue) (k : String) : JSValue :=
  match v with
  | .null => .undefined
  | .undefined => .undefined
  | _ => dotTotal v k

/-- Plain property access `v.k`; `none` models the `TypeError` thrown on a
nullish base. -/
def dot (v : JSValue) (k : String) : Option JSValue :=
  match v with
  | .null => none
  | .undefined => none
  | _ => some (dotTotal v k)

/-! ## String helpers (structural, kernel-reducible) -/

/-- Whitespace (the ASCII part of the JavaScript `\s` class; the pipeline
only manipulates ASCII-spaced text). -/
def isJsWs (c : Char) : Bool :=
  c == ' ' || c == '\t' || c == '\n' || c == '\r' || c == '\x0b' || c == '\x0c'

/-- Embedding of `\w` of JavaScript regexes. -/
def isWordChar (c : Char) : Bool :=
  ('a' ≤ c && c ≤ 'z') || ('A' ≤ c && c ≤ 'Z') || ('0' ≤ c && c ≤ '9') || c == '_'

def jsTrimL (l : List Char) : List Char :=
  ((l.dropWhile isJsWs).reverse.dropWhile isJsWs).reverse

/-- Embedding of `String.prototype.trim` (ASCII whitespace). -/
def jsTrim (s : String) : String := ⟨jsTrimL s.data⟩

/-- Embedding of `String.prototype.toLowerCase` (ASCII). -/
def jsLower (s : String) : String := ⟨s.data.map Char.toLower⟩

/-- Is `needle` a prefix of `hay`? -/
def charsPre : List Char → List Char → Bool
  | [], _ => true
  | _ :: _, [] => false
  | a :: as, b :: bs => a == b && charsPre as bs

/-- Does `needle` occur inside `hay`? -/
def charsInfix (needle : List Char) : List Char → Bool
  | [] => needle.isEmpty
  | b :: bs => charsPre needle (b :: bs) || charsInfix needle bs

/-- Embedding of `String.prototype.includes`. -/
def strContains (s sub : String) : Bool := charsInfix sub.data s.data

/-- Embedding of `String.prototype.startsWith`. -/
def strStarts (s pre : String) : Bool := charsPre pre.data s.data

/-- Replace every (non-overlapping, left-to-right) occurrence of `pat` by
`rep`, like a global literal-regex `replace`.  The fuel dominates the list
length so it never runs out. -/
def replaceChars (pat rep : List Char) : Nat → List Char → List Char
  | _, [] => []
  | 0, l => l
  | fuel+1, b :: bs =>
    if !pat.isEmpty && charsPre pat (b :: bs) then
      rep ++ replaceChars pat rep fuel (List.drop (pat.length - 1) bs)
    else
      b :: replaceChars pat rep fuel bs

/-- Embedding of `s.replace(pat-as-literal-regex with the g flag, rep)`. -/
def strReplace (s pat rep : String) : String :=
  ⟨replaceChars pat.data rep.data s.data.length s.data⟩

/-- Embedding of `replace(/\s+/g, " ")`: every whitespace run becomes one space. -/
def collapseGo (prevWs : Bool) : List Char → List Char
  | [] => []
  | c :: cs =>
    if isJsWs c then
      if prevWs then collapseGo true cs else ' ' :: collapseGo true cs
    else c :: collapseGo false cs

/-- Embedding of `replace(/\s{2,}/g, " ")`: runs of two or more whitespace characters
become one space; a lone whitespace character is kept as it is. -/
def collapse2Go : Nat → List Char → List Char
  | _, [] => []
  | 0, l => l
  | fuel+1, c :: cs =>
    if isJsWs c then
      match cs with
      | d :: _ =>
        if isJsWs d then ' ' :: collapse2Go fuel (cs.dropWhile isJsWs)
        else c :: collapse2Go fuel cs
      | [] => [c]
    else c :: collapse2Go fuel cs

/-- Embedding of `replace(/\s•\s•/g, " • ")`. -/
def bulletPairGo : Nat → List Char → List Char
  | _, [] => []
  | 0, l => l
  | fuel+1, a :: b :: d :: e :: rest =>
    if isJsWs a && b == '•' && isJsWs d && e == '•' then
      ' ' :: '•' :: ' ' :: bulletPairGo fuel rest
    else a :: bulletPairGo fuel (b :: d :: e :: rest)
  | _+1, l => l

/-- Case-insensitive strip of `word` from the front of a list; returns the
remainder on success. -/
def stripCI : List Char → List Char → Option (List Char)
  | [], rest => some rest
  | _ :: _, [] => none
  | w :: ws, c :: cs => if c.toLower == w then stripCI ws cs else none

/-- After the word of `/\bWord\s*\?\?\b/` has been stripped: consume
`\s*\?\?` and check the trailing `\b`.  Since `?` is a non-word character
that boundary holds exactly when the next character is a word character. -/
def matchQQafter (l : List Char) : Option (List Char) :=
  match l.dropWhile isJsWs with
  | '?' :: '?' :: rest =>
    match rest with
    | r :: _ => if isWordChar r then some rest else none
    | [] => none
  | _ => none

/-- Embedding of `replace(/\bWord\s*\?\?\b/gi, "")` for a (lower-cased, letters-only)
`word`.  `prevWord` tracks whether the previous character is a word
character (for the leading `\b`). -/
def wordQQGo (word : List Char) : Nat → Bool → List Char → List Char
  | _, _, [] => []
  | 0, _, l => l
  | fuel+1, prevWord, c :: cs =>
    if !prevWord then
      match stripCI word (c :: cs) with
      | some rest1 =>
        match matchQQafter rest1 with
        | some rest2 => wordQQGo word fuel false rest2
        | none => c :: wordQQGo word fuel (isWordChar c) cs
      | none => c :: wordQQGo word fuel (isWordChar c) cs
    else c :: wordQQGo word fuel (isWordChar c) cs

/-- Embedding of `replace(/\bChapter\/Section\b/gi, "Chapter/Section")` (case
normalization of the phrase).  The trailing `\b` sits after a word
character, so it holds exactly when the next character is absent or not a
word character. -/
def chapSecGo : Nat → Bool → List Char → List Char
  | _, _, [] => []
  | 0, _, l => l
  | fuel+1, prevWord, c :: cs =>
    if !prevWord then
      match stripCI "chapter/section".data (c :: cs) with
      | some rest =>
        match rest with
        | r :: _ =>
          if isWordChar r then c :: chapSecGo fuel (isWordChar c) cs
          else "Chapter/Section".data ++ chapSecGo fuel true rest
        | [] => "Chapter/Section".data ++ chapSecGo fuel true rest
      | none => c :: chapSecGo fuel (isWordChar c) cs
    else c :: chapSecGo fuel (isWordChar c) cs

/-! ## JavaScript `String(·)` and `Number(·)` conversions -/

/-- Decimal expansion of a rational whose denominator divides a power of
ten — every finite double does, so the search always succeeds on reachable
values (huge/tiny magnitudes would use exponent notation in JavaScript;
none of the pipeline's string scrutiny depends on that). -/
def ratToDecimal (q : ℚ) : String :=
  let sign := if q.num < 0 then "-" else ""
  let n := q.num.natAbs
  match (List.range 1200).find? (fun k => 10 ^ (k+1) % q.den == 0) with
  | some k0 =>
    let k := k0 + 1
    let scaled := n * (10 ^ k / q.den)
    let ip := scaled / 10 ^ k
    let fr := scaled % 10 ^ k
    let frs := Nat.repr fr
    let frs := String.mk (List.replicate (k - frs.length) '0') ++ frs
    sign ++ Nat.repr ip ++ "." ++ frs
  | none => sign ++ Nat.repr n ++ "/" ++ Nat.repr q.den

/-- Embedding of `String(n)` for a number. -/
def jsNumToString : JNum → String
  | .nan => "NaN"
  | .posInf => "Infinity"
  | .negInf => "-Infinity"
  | .fin q => if q.den == 1 then toString q.num else ratToDecimal q

/- `String(v)`.  Arrays stringify as their comma-joined elements with
nullish elements blank; plain objects as `"[object Object]"`. -/
mutual
def jsToString : JSValue → String
  | .null => "null"
  | .undefined => "undefined"
  | .bool true => "true"
  | .bool false => "false"
  | .num n => jsNumToString n
  | .str s => s
  | .arr xs => String.intercalate "," (jsStrElems xs)
  | .obj _ => "[object Object]"
def jsStrElems : JSList → List String
  | .nil => []
  | .cons h t =>
    (match h with
     | .null => ""
     | .undefined => ""
     | v => jsToString v) :: jsStrElems t
end

def digitsValGo : Nat → List Char → Option Nat
  | acc, [] => some acc
  | acc, c :: cs =>
    if c.isDigit then digitsValGo (acc * 10 + (c.toNat - '0'.toNat)) cs else none

/-- Embedding of `Number(s)` for a string: ASCII-trimmed; empty means `0`; an optional
sign followed by a decimal literal (`12`, `12.5`, `.5`, `5.`) parses
exactly; anything else is `NaN`.  (Hex/exponent/`Infinity` forms, which
never show up in the texts below, also yield `NaN` here.) -/
def strToJNum (s : String) : JNum :=
  let t := jsTrimL s.data
  if t.isEmpty then .fin 0
  else
    let sign : Int := match t with
      | '-' :: _ => -1
      | _ => 1
    let t2 := match t with
      | '-' :: r => r
      | '+' :: r => r
      | r => r
    match t2.span Char.isDigit with
    | (ip, rest) =>
      match rest with
      | [] =>
        if ip.isEmpty then .nan
        else
          match digitsValGo 0 ip with
          | some n => .fin ((sign * (n : Int) : Int) : ℚ)
          | none => .nan
      | '.' :: fr =>
        if fr.all Char.isDigit && !(ip.isEmpty && fr.isEmpty) then
          match digitsValGo 0 ip, digitsValGo 0 fr with
          | some i, some f =>
            .fin (mkRat (sign * ((i * 10 ^ fr.length + f : Nat) : Int)) (10 ^ fr.length))
          | _, _ => .nan
        else .nan
      | _ => .nan

/-- Embedding of `Number(v)` (JavaScript `ToNumber`). -/
def jsToNumber : JSValue → JNum
  | .null => .fin 0
  | .undefined => .nan
  | .bool true => .fin 1
  | .bool false => .fin 0
  | .num n => n
  | .str s => strToJNum s
  | .arr xs => strToJNum (jsToString (.arr xs))
  | .obj _ => .nan

/-! ## The field-coercion utilities of `lib/aiAnalysis.ts` -/

/-- Embedding of `asString(v, fallback)`. -/
def asString (v : JSValue) (fallback : String := "") : String :=
  match v with
  | .str s => s
  | _ => fallback

/-- Embedding of `asNumber(v, fallback)` (`typeof v === "number" && Number.isFinite(v)`). -/
def asNumber (v : JSValue) (fallback : ℚ := 0) : ℚ :=
  match v with
  | .num (.fin q) => q
  | _ => fallback

/-- Embedding of `asArray(v)` (`Array.isArray(v) ? v : []`). -/
def asArray (v : JSValue) : List JSValue :=
  match v with
  | .arr xs => xs.toList
  | _ => []

/-- Embedding of `clamp(n, mn, mx) = Math.min(mx, Math.max(mn, n))`. -/
def clamp (n mn mx : ℚ) : ℚ := min mx (max mn n)

/-! ## The data model of `lib/aiAnalysis.ts`

The TypeScript union types (`SourceName`, `StatementVerdict`, difficulty
levels, recommendations) are string unions; they are embedded as `String`
fields, with the closed-set membership proved as theorems rather than
baked into the types — exactly what the defensive runtime code assumes. -/

structure SourceRef where
  name : String
  pointer : String
  url : Option String
deriving DecidableEq

structure Fact where
  fact : String
  «example» : Option String
  source : SourceRef
deriving DecidableEq

structure StatementBlock where
  id : JNum
  verdict : String
  facts : List Fact
deriving DecidableEq

structure TopicBrief where
  title : String
  bullets : List String
deriving DecidableEq

structure Difficulty where
  level : String
  why : List String
deriving DecidableEq

structure AiVerdict where
  recommendation : String
  rationale : String
  confidence : JNum
deriving DecidableEq

structure StrategyV1 where
  difficulty : Difficulty
  exam_strategy : List String
  logical_deduction : List String
  ai_verdict : AiVerdict
deriving DecidableEq

structure QuestionAnalysisV1 where
  correct_answer : String
  topic_brief : TopicBrief
  statements : List StatementBlock
  strategy : StrategyV1
deriving DecidableEq

/-! ## The Normalizer (`normalizeQuestionAnalysisV1`, `lib/aiAnalysis.ts`) -/

/-- The closed 9-value source-name set (identical lists appear in
`lib/aiAnalysis.ts` and `lib/generateQuestionAnalysis.ts`). -/
def ALLOWED_SOURCES : List String :=
  ["NCERT", "Tamil Nadu Board", "Standard book", "PIB", "Govt website",
   "International org", "The Hindu", "Indian Express", "Other"]

/-- Embedding of `normalizeSourceName` of `lib/aiAnalysis.ts`. -/
def normalizeSourceName (n : JSValue) : String :=
  let s := jsTrim (jsToString (nullishD n (.str "")))
  if ALLOWED_SOURCES.contains s then s else "Other"

/-- Embedding of `normalizePointer` of `lib/aiAnalysis.ts`: `String(p ?? "").trim()`,
`"General reference"` when empty, otherwise the chain of placeholder
strips, whitespace collapses, and leading/trailing bullet removal. -/
def normalizePointer (p : JSValue) : String :=
  let s := jsTrim (jsToString (nullishD p (.str "")))
  if s == "" then "General reference"
  else
    let d0 := s.data
    let d1 := wordQQGo "class".data (d0.length + 1) false d0
    let d2 := wordQQGo "subject".data (d1.length + 1) false d1
    let d3 := chapSecGo (d2.length + 1) false d2
    let d4 := collapse2Go (d3.length + 1) d3
    let d5 := bulletPairGo (d4.length + 1) d4
    let d6 := jsTrimL d5
    let d7 := d6.dropWhile (fun c => c == '•' || isJsWs c)
    ⟨((d7.reverse).dropWhile (fun c => c == '•' || isJsWs c)).reverse⟩

/-- One fact of one statement inside the Normalizer's `statements` map. -/
def normFact (f : JSValue) : Fact :=
  let sourceObj := nullishD (qdot f "source") (.obj .fnil)
  { fact := jsTrim (asString (qdot f "fact") "")
    «example» :=
      match qdot f "example" with
      | .str e => if 0 < (jsTrim e).length then some (jsTrim e) else none
      | _ => none
    source :=
      { name := normalizeSourceName (qdot sourceObj "name")
        pointer := normalizePointer (qdot sourceObj "pointer")
        url :=
          match qdot sourceObj "url" with
          | .str u => some u
          | _ => none } }

/-- One statement of the Normalizer's `statements` map (`idx` is the
0-based position).  An `id` is kept only when it is a finite *number
value* greater than zero; otherwise the 1-based position is used. -/
def normStatement (idx : Nat) (s : JSValue) : StatementBlock :=
  let facts := ((asArray (qdot s "facts")).map normFact).filter (fun x => 0 < x.fact.length)
  let verdictRaw := asString (qdot s "verdict") "unknown"
  { id :=
      match qdot s "id" with
      | .num (.fin q) => if 0 < q then .fin q else .fin ((idx + 1 : Nat) : ℚ)
      | _ => .fin ((idx + 1 : Nat) : ℚ)
    verdict :=
      if verdictRaw == "correct" || verdictRaw == "incorrect" || verdictRaw == "unknown"
      then verdictRaw else "unknown"
    facts := facts }

/-- Embedding of `raw.statements.map((s, idx) => ...)` as an index-threading recursion. -/
def normStatements : Nat → List JSValue → List StatementBlock
  | _, [] => []
  | idx, s :: rest => normStatement idx s :: normStatements (idx + 1) rest

/-- The Normalizer's three tolerated `topic_brief` shapes: a proper
object, a bare array of bullets, a bare string bullet; anything else is
the default.  (`tb && typeof tb === "object" && !Array.isArray(tb)` holds
exactly for object values.) -/
def normTopicBrief (tb : JSValue) : TopicBrief :=
  match tb with
  | .obj fs =>
    { title := asString (dotTotal (.obj fs) "title") "Topic Brief"
      bullets :=
        ((asArray (dotTotal (.obj fs) "bullets")).map (fun x => asString x "")).filter
          (fun b => !(b == "")) }
  | .arr xs =>
    { title := "Topic Brief"
      bullets := (xs.toList.map (fun x => asString x "")).filter (fun b => !(b == "")) }
  | .str s =>
    { title := "Topic Brief", bullets := [s].filter (fun b => !(b == "")) }
  | _ => { title := "Topic Brief", bullets := [] }

/-- The pure body of the Normalizer, taking the values of the eight plain
(`.`-style, hence potentially throwing) property accesses plus the
nullish-guarded `st` object. -/
def normalizeCore (tb stmtsV lvlV whyV exV ldV caV st : JSValue) : QuestionAnalysisV1 :=
  let difficultyLevelRaw := asString lvlV "moderate"
  { correct_answer := asString caV ""
    topic_brief := normTopicBrief tb
    statements := normStatements 0 (asArray stmtsV)
    strategy :=
      { difficulty :=
          { level :=
              if difficultyLevelRaw == "easy" || difficultyLevelRaw == "moderate" ||
                  difficultyLevelRaw == "hard"
              then difficultyLevelRaw else "moderate"
            why := ((asArray whyV).map (fun x => asString x "")).filter (fun b => !(b == "")) }
        exam_strategy :=
          ((asArray exV).map (fun x => asString x "")).filter (fun b => !(b == ""))
        logical_deduction :=
          ((asArray ldV).map (fun x => asString x "")).filter (fun b => !(b == ""))
        ai_verdict :=
          { recommendation :=
              if asString (qdot (qdot st "ai_verdict") "recommendation") "attempt" == "skip"
              then "skip" else "attempt"
            rationale := asString (qdot (qdot st "ai_verdict") "rationale") ""
            confidence := .fin (clamp (asNumber (qdot (qdot st "ai_verdict") "confidence") 60) 0 100) } } }

/-- Embedding of `normalizeQuestionAnalysisV1(raw)` with the plain property accesses
made explicit in `Option` (`none` = a thrown `TypeError`).  The accesses,
in source order: `obj.topic_brief`, `obj.statements`, `obj.strategy`,
`st.difficulty`, `diff.level`, `diff.why`, `st.exam_strategy`,
`st.logical_deduction`, `obj.correct_answer`, where `obj = raw ?? {}`,
`st = obj.strategy ?? {}`, `diff = st.difficulty ?? {}`. -/
def normalizeE (raw : JSValue) : Option QuestionAnalysisV1 :=
  let obj := nullishD raw (.obj .fnil)
  (dot obj "topic_brief").bind fun tb =>
  (dot obj "statements").bind fun stmtsV =>
  (dot obj "strategy").bind fun stratV =>
  let st := nullishD stratV (.obj .fnil)
  (dot st "difficulty").bind fun diffV =>
  let diff := nullishD diffV (.obj .fnil)
  (dot diff "level").bind fun lvlV =>
  (dot diff "why").bind fun whyV =>
  (dot st "exam_strategy").bind fun exV =>
  (dot st "logical_deduction").bind fun ldV =>
  (dot obj "correct_answer").bind fun caV =>
  some (normalizeCore tb stmtsV lvlV whyV exV ldV caV st)

/-- Property access via `dot` never fails on a nullish-coalesced value. -/
theorem dot_nullishD_isSome (v : JSValue) (fs : JSFields) (k : String) :
    ∃ y, dot (nullishD v (.obj fs)) k = some y := by
  cases v <;> exact ⟨_, rfl⟩

/-- The Normalizer, evaluated: it always reaches the final `normalizeCore`
(the `Option` error branch of `normalizeE` is unreachable). -/
theorem normalizeE_eq (raw : JSValue) :
    ∃ tb stmtsV lvlV whyV exV ldV caV st,
      normalizeE raw = some (normalizeCore tb stmtsV lvlV whyV exV ldV caV st) := by
  obtain ⟨tb, htb⟩ := dot_nullishD_isSome raw .fnil "topic_brief"
  obtain ⟨stm, hstm⟩ := dot_nullishD_isSome raw .fnil "statements"
  obtain ⟨strat, hstrat⟩ := dot_nullishD_isSome raw .fnil "strategy"
  obtain ⟨diffV, hdiff⟩ := dot_nullishD_isSome strat .fnil "difficulty"
  obtain ⟨lvl, hlvl⟩ := dot_nullishD_isSome diffV .fnil "level"
  obtain ⟨why, hwhy⟩ := dot_nullishD_isSome diffV .fnil "why"
  obtain ⟨ex, hex⟩ := dot_nullishD_isSome strat .fnil "exam_strategy"
  obtain ⟨ld, hld⟩ := dot_nullishD_isSome strat .fnil "logical_deduction"
  obtain ⟨ca, hca⟩ := dot_nullishD_isSome raw .fnil "correct_answer"
  exact ⟨tb, stm, lvl, why, ex, ld, ca, nullishD strat (.obj .fnil),
    by simp [normalizeE, htb, hstm, hstrat, hdiff, hlvl, hwhy, hex, hld, hca]⟩

/-- The all-defaults analysis; used as the (provably unreachable, see
`normalizeE_eq`) `getD` default of the total wrapper below. -/
def defaultAnalysis : QuestionAnalysisV1 :=
  normalizeCore .undefined .undefined .undefined .undefined .undefined .undefined .undefined
    (.obj .fnil)

/-- The Normalizer as the total function it is proved to be. -/
def normalizeQuestionAnalysisV1 (raw : JSValue) : QuestionAnalysisV1 :=
  (normalizeE raw).getD defaultAnalysis

theorem normalize_eq_core (raw : JSValue) :
    ∃ tb stmtsV lvlV whyV exV ldV caV st,
      normalizeQuestionAnalysisV1 raw = normalizeCore tb stmtsV lvlV whyV exV ldV caV st := by
  obtain ⟨tb, stm, lvl, why, ex, ld, ca, st, h⟩ := normalizeE_eq raw
  exact ⟨tb, stm, lvl, why, ex, ld, ca, st, by simp [normalizeQuestionAnalysisV1, h]⟩

theorem normalizeE_eq_some (raw : JSValue) :
    normalizeE raw = some (normalizeQuestionAnalysisV1 raw) := by
  obtain ⟨_, _, _, _, _, _, _, _, h⟩ := normalizeE_eq raw
  simp [normalizeQuestionAnalysisV1, h]

/-! ## `lib/generateQuestionAnalysis.ts`: request type -/

inductive AnswerLetter where
  | A
  | B
  | C
  | D
deriving DecidableEq

def AnswerLetter.toStr : AnswerLetter → String
  | .A => "A"
  | .B => "B"
  | .C => "C"
  | .D => "D"

structure GenOptions where
  A : Option String
  B : Option String
  C : Option String
  D : Option String
deriving DecidableEq

/-- Embedding of `GenerateInput` of `lib/generateQuestionAnalysis.ts`. -/
structure GenerateInput where
  questionText : String
  options : GenOptions
  officialAnswer : AnswerLetter
deriving DecidableEq

/-! ## Source sanitization + smart mapping -/

/-- Embedding of `cleanPointer`: drop `??`, collapse `\s+` runs to a single space,
rewrite `\s•\s•` to `" • "`, trim.  (`String(pointer || "")` is the
identity on the string argument it receives here.) -/
def cleanPointer (pointer : String) : String :=
  let d0 := (strReplace pointer "??" "").data
  let d1 := collapseGo false d0
  let d2 := bulletPairGo (d1.length + 1) d1
  jsTrim ⟨d2⟩

def govtHints : List String :=
  [ "ministry", "department", "government of india", "gazette", "notification",
    "circular", "guidelines", "framework", "rules", "act", "bill", "ordinance",
    "commission", "finance commission", "report", "scheme", "yojana", "mission",
    "portal", "website", "press note" ]

def intlHints : List String :=
  [ "unfccc", "paris agreement", "kyoto", "cop", "ipcc", "iea", "undp", "unep",
    "who", "world bank", "imf", "un", "unesco", "fao", "oecd", "wto", "iucn",
    "united nations" ]

/-- Embedding of `inferSourceFromText`: keyword clusters over the lower-cased
question + fact text; `"Standard book"` when no cluster matches. -/
def inferSourceFromText (questionText factText : String) : String :=
  let t := jsLower (questionText ++ " " ++ factText)
  if strContains t "pib" || strContains t "press information bureau" ||
      strContains t "press release" then "PIB"
  else if govtHints.any (fun k => strContains t k) then "Govt website"
  else if intlHints.any (fun k => strContains t k) then "International org"
  else if strContains t "the hindu" then "The Hindu"
  else if strContains t "indian express" then "Indian Express"
  else "Standard book"

/-- Embedding of `String(src?.name || "Other").trim()`. -/
def rawSourceName (src : JSValue) : String :=
  jsTrim (jsToString (if (qdot src "name").truthy then qdot src "name" else .str "Other"))

/-- Embedding of `cleanPointer(String(src?.pointer || ""))`. -/
def cleanedSourcePointer (src : JSValue) : String :=
  cleanPointer (jsToString (if (qdot src "pointer").truthy then qdot src "pointer" else .str ""))

/-- The "too generic" pointer test of `sanitizeSource`. -/
def pointerTooGeneric (pointer : String) : Bool :=
  pointer == "" || pointer.length < 8 ||
  strContains (jsLower pointer) "general reference" ||
  strContains (jsLower pointer) "chapter on" ||
  strContains (jsLower pointer) "section on"

/-- The per-bucket canonical pointer texts of `sanitizeSource`. -/
def defaultPointer (name : String) : String :=
  if name == "NCERT" then "NCERT • Textbook reference"
  else if name == "Tamil Nadu Board" then "Tamil Nadu Board • Textbook reference"
  else if name == "PIB" then "PIB • Release/Article"
  else if name == "Govt website" then "Govt website • Official page/document"
  else if name == "International org" then "International organisation • Official document/page"
  else if name == "The Hindu" then "The Hindu • Article"
  else if name == "Indian Express" then "Indian Express • Article"
  else if name == "Standard book" then "Standard book • Reference"
  else "General reference"

/-- The linkable subset (URLs only for external sources). -/
def linkableName (name : String) : Bool :=
  name == "PIB" || name == "Govt website" || name == "International org" ||
  name == "The Hindu" || name == "Indian Express"

/-- Embedding of `typeof src?.url === "string" && src.url.startsWith("http") ? src.url
: undefined`. -/
def urlExtract (src : JSValue) : Option String :=
  match qdot src "url" with
  | .str u => if strStarts u "http" then some u else none
  | _ => none

/-- Embedding of `sanitizeSource(src, questionText, factText)`. -/
def sanitizeSource (src : JSValue) (questionText factText : String) : SourceRef :=
  let rawName := rawSourceName src
  let name0 := if ALLOWED_SOURCES.contains rawName then rawName else "Other"
  let pointer0 := cleanedSourcePointer src
  let name :=
    if name0 == "Other" || pointerTooGeneric pointer0
    then inferSourceFromText questionText factText else name0
  let pointer :=
    if pointer0 == "" || pointerTooGeneric pointer0 then defaultPointer name else pointer0
  { name := name
    pointer := pointer
    url := if linkableName name then urlExtract src else none }

/-! ## Quality checks (the Quality Gate) -/

def badTopicPhrases : List String :=
  [ "core concept", "key definition", "where upsc hides confusion",
    "what to recall vs what to deduce", "general reference" ]

def looksGenericTopicBullets (bullets : List String) : Bool :=
  let joined := jsLower (String.intercalate " | " bullets)
  badTopicPhrases.any (fun p => strContains joined p)

def badFactPhrases : List String :=
  [ "matches the key concept", "other options contradict", "standard framing",
    "general reference", "directly matches the fact asked" ]

def looksGenericStatementFacts (facts : List Fact) : Bool :=
  let joined := String.intercalate " | " (facts.map (fun f => jsLower f.fact))
  badFactPhrases.any (fun p => strContains joined p)

/-- Embedding of `analysisLooksWeak`.  The `?? []` / `!strategy` guards of the source
are statically satisfied by the record type and drop out. -/
def analysisLooksWeak (a : QuestionAnalysisV1) : Bool :=
  let tb := a.topic_brief.bullets
  if tb.length < 2 then true
  else if looksGenericTopicBullets tb then true
  else if a.statements.length == 0 then true
  else if !(a.statements.any fun s =>
      !(s.facts.length < 2) && !looksGenericStatementFacts s.facts) then true
  else if a.strategy.exam_strategy.length < 2 then true
  else if a.strategy.logical_deduction.length < 2 then true
  else if a.strategy.difficulty.why.length < 1 then true
  else if a.strategy.ai_verdict.rationale == "" ||
      (jsTrim a.strategy.ai_verdict.rationale).length < 10 then true
  else false

/-! ## Prompt -/

/-- Embedding of `buildPrompt(input)`: the template literal, line by line (literal
braces written with escapes), trimmed as in the source. -/
def buildPrompt (input : GenerateInput) : String :=
  let oa := input.officialAnswer.toStr
  jsTrim (String.intercalate "\n"
    [ ""
    , "You are a UPSC Prelims (GS) expert."
    , ""
    , "NON-NEGOTIABLE:"
    , "- Official correct option is " ++ oa ++ "."
    , "- correct_answer MUST be \"" ++ oa ++ "\"."
    , "- Do NOT dispute the answer key."
    , ""
    , "STYLE RULES (STRICT):"
    , "- No generic filler lines."
    , "- Topic Brief: 3–6 bullets, SPECIFIC to this question/topic."
    , "- Statement-wise: Provide supporting/contradicting FACTS (not rephrases)."
    , "- Each statement should have 2–4 facts if possible."
    , "- Sources: If you cannot give exact NCERT/TN location confidently, keep pointer generic but professional."
    , "- Prefer PIB/Govt/International org for schemes, reports, numeric statistics, treaties."
    , ""
    , "OUTPUT: Return ONLY JSON (no markdown, no extra text) in this schema:"
    , ""
    , "\x7b"
    , "  \"correct_answer\": \"A|B|C|D\","
    , "  \"topic_brief\": \x7b \"title\": \"string\", \"bullets\": [\"string\"] \x7d,"
    , "  \"statements\": ["
    , "    \x7b"
    , "      \"id\": 1,"
    , "      \"verdict\": \"correct|incorrect|unknown\","
    , "      \"facts\": ["
    , "        \x7b"
    , "          \"fact\": \"string\","
    , "          \"example\": \"string (optional)\","
    , "          \"source\": \x7b"
    , "            \"name\": \"NCERT|Tamil Nadu Board|Standard book|PIB|Govt website|International org|The Hindu|Indian Express|Other\","
    , "            \"pointer\": \"string\","
    , "            \"url\": \"string (optional)\""
    , "          \x7d"
    , "        \x7d"
    , "      ]"
    , "    \x7d"
    , "  ],"
    , "  \"strategy\": \x7b"
    , "    \"difficulty\": \x7b \"level\": \"easy|moderate|hard\", \"why\": [\"string\"] \x7d,"
    , "    \"exam_strategy\": [\"string\"],"
    , "    \"logical_deduction\": [\"string\"],"
    , "    \"ai_verdict\": \x7b"
    , "      \"recommendation\": \"attempt|skip\","
    , "      \"rationale\": \"string\","
    , "      \"confidence\": 0"
    , "    \x7d"
    , "  \x7d"
    , "\x7d"
    , ""
    , "Question:"
    , input.questionText
    , ""
    , "Options:"
    , "A) " ++ input.options.A.getD ""
    , "B) " ++ input.options.B.getD ""
    , "C) " ++ input.options.C.getD ""
    , "D) " ++ input.options.D.getD ""
    , "" ])

/-! ## Post-processing -/

/-- Embedding of `SourceRef` as the runtime value handed to `sanitizeSource` by
`postProcess` (`f?.source ?? {}` on a typed fact). -/
def sourceToJS (s : SourceRef) : JSValue :=
  .obj (jsFieldsOf
    [ ("name", .str s.name)
    , ("pointer", .str s.pointer)
    , ("url", match s.url with | some u => .str u | none => .undefined) ])

/-- Embedding of `map(x => String(x || "").trim()).filter(Boolean)` on a string array
(on strings `String(x || "")` is the identity). -/
def ppStrList (l : List String) : List String :=
  (l.map (fun x => jsTrim x)).filter (fun b => !(b == ""))

/-- Embedding of `postProcess`'s verdict re-normalization
(`String(s?.verdict || "unknown").toLowerCase()` with the closed-set check). -/
def ppVerdict (v : String) : String :=
  let verdictRaw := jsLower (if v == "" then "unknown" else v)
  if verdictRaw == "correct" || verdictRaw == "incorrect" || verdictRaw == "unknown"
  then verdictRaw else "unknown"

/-- Embedding of `postProcess`'s difficulty-level re-normalization. -/
def ppLevel (level : String) : String :=
  let lvl := jsLower (if level == "" then "moderate" else level)
  if lvl == "easy" || lvl == "moderate" || lvl == "hard" then lvl else "moderate"

/-- Embedding of `postProcess`'s recommendation re-normalization
(`String(r || "attempt") === "skip" ? "skip" : "attempt"`). -/
def ppRecommendation (r : String) : String :=
  if (if r == "" then "attempt" else r) == "skip" then "skip" else "attempt"

/-- Embedding of `postProcess`'s confidence re-clamp (`Number(·)` on a number value is
the identity). -/
def ppConfidence (c : JNum) : JNum :=
  match c with
  | .fin q => .fin (clamp q 0 100)
  | _ => .fin 60

/-- Embedding of `postProcess`'s example re-normalization: trim if a string, keep only
when non-empty. -/
def ppExample (ex : Option String) : Option String :=
  (ex.map jsTrim).bind (fun e => if 0 < e.length then some e else none)

/-- One fact inside `postProcess`'s statement map; `none` models the
`null` that the subsequent `.filter(Boolean)` drops. -/
def ppFact (questionText : String) (f : Fact) : Option Fact :=
  let fact := jsTrim f.fact
  if fact == "" then none
  else
    some
      { fact := fact
        «example» := ppExample f.«example»
        source := sanitizeSource (sourceToJS f.source) questionText fact }

/-- One statement inside `postProcess` (`Number(·)` on the number-typed
`id` is the identity). -/
def ppStatement (questionText : String) (idx : Nat) (s : StatementBlock) : StatementBlock :=
  { id := if s.id.isFinite && s.id.gtZero then s.id else .fin ((idx + 1 : Nat) : ℚ)
    verdict := ppVerdict s.verdict
    facts := s.facts.filterMap (ppFact questionText) }

/-- Embedding of `a.statements.map((s, idx) => ...)` of `postProcess`. -/
def ppStatements (questionText : String) : Nat → List StatementBlock → List StatementBlock
  | _, [] => []
  | idx, s :: rest => ppStatement questionText idx s :: ppStatements questionText (idx + 1) rest

/-- Embedding of `(a.topic_brief.title || "Topic Brief").trim()`. -/
def ppTitle (t : String) : String :=
  jsTrim (if t == "" then "Topic Brief" else t)

/-- Embedding of `postProcess(a, input)`.  The `?? {...}`-style guards on
`topic_brief`, `strategy`, `ai_verdict` and the `Array.isArray` checks are
statically satisfied by the record type and drop out. -/
def postProcess (a : QuestionAnalysisV1) (input : GenerateInput) : QuestionAnalysisV1 :=
  let statements0 :=
    if a.statements.isEmpty then [⟨.fin 1, "unknown", []⟩] else a.statements
  { correct_answer := input.officialAnswer.toStr
    topic_brief :=
      { title := ppTitle a.topic_brief.title
        bullets := ppStrList a.topic_brief.bullets }
    statements := ppStatements input.questionText 0 statements0
    strategy :=
      { difficulty :=
          { level := ppLevel a.strategy.difficulty.level
            why := ppStrList a.strategy.difficulty.why }
        exam_strategy := ppStrList a.strategy.exam_strategy
        logical_deduction := ppStrList a.strategy.logical_deduction
        ai_verdict :=
          { recommendation := ppRecommendation a.strategy.ai_verdict.recommendation
            rationale := jsTrim a.strategy.ai_verdict.rationale
            confidence := ppConfidence a.strategy.ai_verdict.confidence } } }

/-! ## The Retry Orchestrator -/

/-- Transport-level failures of the external generator call (network,
auth, rate limit); they are not caught inside the pipeline. -/
abbrev GenError := String

/-- The parameters of one `openai.chat.completions.create` call. -/
structure ChatMessage where
  role : String
  content : String
deriving DecidableEq

structure ChatRequest where
  model : String
  temperature : ℚ
  max_tokens : Nat
  jsonResponseFormat : Bool
  messages : List ChatMessage
deriving DecidableEq

/-- The request built for attempt 1 (temperature `0.2`) or attempt 2
(temperature `0.35`). -/
def mkChatRequest (prompt : String) (attempt : Nat) : ChatRequest :=
  { model := "gpt-4.1-mini"
    temperature := if attempt == 1 then mkRat 2 10 else mkRat 35 100
    max_tokens := 1200
    jsonResponseFormat := true
    messages := [{ role := "user", content := prompt }] }

/-- The hand-authored fallback analysis literal (the argument of the
final `normalizeQuestionAnalysisV1` call in `generateQuestionAnalysis`). -/
def fallbackRaw (input : GenerateInput) : JSValue :=
  .obj (jsFieldsOf
    [ ("correct_answer", .str input.officialAnswer.toStr)
    , ("topic_brief", .obj (jsFieldsOf
        [ ("title", .str "Topic Brief")
        , ("bullets", .arr (jsListOf
            [ .str "This question hinges on a specific anchor fact; confirm it from a primary source."
            , .str "Attempt only if you can recall at least one anchor confidently under pressure."
            , .str "If no anchor exists quickly, skip to protect accuracy under negative marking." ])) ]))
    , ("statements", .arr (jsListOf
        [ .obj (jsFieldsOf
            [ ("id", .num (.fin 1))
            , ("verdict", .str "unknown")
            , ("facts", .arr (jsListOf
                [ .obj (jsFieldsOf
                    [ ("fact", .str "Confirm the key recall-based fact from an official document/textbook before relying on it in exam conditions.")
                    , ("source", .obj (jsFieldsOf
                        [ ("name", .str "Standard book")
                        , ("pointer", .str "Standard book • Reference") ])) ]) ])) ]) ]))
    , ("strategy", .obj (jsFieldsOf
        [ ("difficulty", .obj (jsFieldsOf
            [ ("level", .str "moderate")
            , ("why", .arr (jsListOf
                [ .str "Recall-heavy; depends on having read the source." ])) ]))
        , ("exam_strategy", .arr (jsListOf
            [ .str "Look for one high-confidence anchor fact; if absent, skip fast."
            , .str "Don’t burn time validating multiple statements via guesswork." ]))
        , ("logical_deduction", .arr (jsListOf
            [ .str "Prefer stable anchors (definitions, core NCERT concepts) over fuzzy recall."
            , .str "If >2 statements need blind recall, treat as a skip candidate." ]))
        , ("ai_verdict", .obj (jsFieldsOf
            [ ("recommendation", .str "skip")
            , ("rationale", .str "Attempt only if you have a high-confidence anchor fact; otherwise skip to protect score under negative marking.")
            , ("confidence", .num (.fin 55)) ])) ])) ])

instance : DecidableEq (Except GenError QuestionAnalysisV1) := fun a b =>
  match a, b with
  | .error e, .error e' =>
    decidable_of_iff (e = e') ⟨fun h => by rw [h], fun h => by cases h; rfl⟩
  | .ok v, .ok v' =>
    decidable_of_iff (v = v') ⟨fun h => by rw [h], fun h => by cases h; rfl⟩
  | .error _, .ok _ => isFalse (by intro h; cases h)
  | .ok _, .error _ => isFalse (by intro h; cases h)

/-- Embedding of `generateQuestionAnalysis(input)`, the two-iteration `for` loop
unrolled.  The oracle stands for one external generator call: it receives
the full request (model, temperature, token cap, response-format hint,
messages) and returns the JSON-parsed value of the response content
(defaulted to an empty object when absent) — `safeParseJSON` swallows
parse failures into an empty object, so a transport-level success always
yields a `JSValue`; a transport-level failure is `Except.error` and
propagates uncaught. -/
def generateQuestionAnalysis (oracle : ChatRequest → Except GenError JSValue)
    (input : GenerateInput) : Except GenError QuestionAnalysisV1 :=
  let prompt := buildPrompt input
  match oracle (mkChatRequest prompt 1) with
  | .error e => .error e
  | .ok raw1 =>
    let analysis1 := postProcess (normalizeQuestionAnalysisV1 raw1) input
    if analysisLooksWeak analysis1 then
      match oracle (mkChatRequest prompt 2) with
      | .error e => .error e
      | .ok raw2 =>
        let analysis2 := postProcess (normalizeQuestionAnalysisV1 raw2) input
        if analysisLooksWeak analysis2 then
          .ok (postProcess (normalizeQuestionAnalysisV1 (fallbackRaw input)) input)
        else .ok analysis2
    else .ok analysis1

/-! ## Helper lemmas: trimming is idempotent -/

theorem dropWhile_eq_self_of_head (p : Char → Bool) (l : List Char)
    (h : ∀ a, l.head? = some a → p a = false) : l.dropWhile p = l := by
  cases l with
  | nil => rfl
  | cons b t => rw [List.dropWhile_cons, h b rfl]; simp

theorem head_dropWhile_false (p : Char → Bool) (l : List Char) (a : Char)
    (h : (l.dropWhile p).head? = some a) : p a = false := by
  induction l with
  | nil => simp at h
  | cons b t ih =>
    rw [List.dropWhile_cons] at h
    cases hpb : p b with
    | true => rw [hpb] at h; simp only [if_true] at h; exact ih h
    | false =>
      rw [hpb] at h
      simp at h
      subst h
      exact hpb

theorem getLast_dropWhile_eq (p : Char → Bool) (l : List Char)
    (h : l.dropWhile p ≠ []) : (l.dropWhile p).getLast? = l.getLast? := by
  induction l with
  | nil => simp at h
  | cons b t ih =>
    rw [List.dropWhile_cons]
    cases hpb : p b with
    | true =>
      rw [List.dropWhile_cons, hpb] at h
      simp only [if_true] at h ⊢
      rw [ih h]
      cases t with
      | nil => simp [List.dropWhile] at h
      | cons c t' => rfl
    | false => simp

theorem jsTrimL_idem (l : List Char) : jsTrimL (jsTrimL l) = jsTrimL l := by
  have h1 : (jsTrimL l).dropWhile isJsWs = jsTrimL l := by
    apply dropWhile_eq_self_of_head
    intro a ha
    unfold jsTrimL at ha
    rw [List.head?_reverse] at ha
    have hne : (l.dropWhile isJsWs).reverse.dropWhile isJsWs ≠ [] := by
      intro hnil
      rw [hnil] at ha
      simp at ha
    rw [getLast_dropWhile_eq _ _ hne, List.getLast?_reverse] at ha
    exact head_dropWhile_false isJsWs l a ha
  have h2 : (jsTrimL l).reverse.dropWhile isJsWs = (jsTrimL l).reverse := by
    apply dropWhile_eq_self_of_head
    intro a ha
    unfold jsTrimL at ha
    rw [List.reverse_reverse] at ha
    exact head_dropWhile_false isJsWs _ a ha
  show (((jsTrimL l).dropWhile isJsWs).reverse.dropWhile isJsWs).reverse = jsTrimL l
  rw [h1, h2, List.reverse_reverse]

theorem jsTrim_idem (s : String) : jsTrim (jsTrim s) = jsTrim s := by
  unfold jsTrim
  exact congrArg String.mk (jsTrimL_idem s.data)

/-! ## Helper lemmas: the post-processor's field normalizers are stable -/

theorem ppStrList_mem (l : List String) (b : String) (hb : b ∈ ppStrList l) :
    jsTrim b = b ∧ b ≠ "" := by
  unfold ppStrList at hb
  rw [List.mem_filter] at hb
  obtain ⟨hm, hne⟩ := hb
  rw [List.mem_map] at hm
  obtain ⟨x, _, rfl⟩ := hm
  refine ⟨jsTrim_idem x, ?_⟩
  simpa using hne

theorem ppStrList_fixed (l : List String) (h : ∀ b ∈ l, jsTrim b = b ∧ b ≠ "") :
    ppStrList l = l := by
  unfold ppStrList
  have hm : l.map (fun x => jsTrim x) = l := by
    have := List.map_congr_left (l := l) (f := fun x => jsTrim x) (g := id)
      (fun b hb => (h b hb).1)
    simpa using this
  rw [hm, List.filter_eq_self]
  intro b hb
  simpa using (h b hb).2

theorem ppStrList_idem (l : List String) : ppStrList (ppStrList l) = ppStrList l :=
  ppStrList_fixed _ (fun b hb => ppStrList_mem l b hb)

theorem ppVerdict_mem (v : String) :
    ppVerdict v = "correct" ∨ ppVerdict v = "incorrect" ∨ ppVerdict v = "unknown" := by
  simp only [ppVerdict]
  generalize jsLower (if v == "" then "unknown" else v) = r
  split
  next h =>
    simp only [Bool.or_eq_true, beq_iff_eq] at h
    tauto
  next => tauto

theorem ppVerdict_idem (v : String) : ppVerdict (ppVerdict v) = ppVerdict v := by
  rcases ppVerdict_mem v with h | h | h <;> rw [h] <;> decide

theorem ppLevel_mem (level : String) :
    ppLevel level = "easy" ∨ ppLevel level = "moderate" ∨ ppLevel level = "hard" := by
  simp only [ppLevel]
  generalize jsLower (if level == "" then "moderate" else level) = r
  split
  next h =>
    simp only [Bool.or_eq_true, beq_iff_eq] at h
    tauto
  next => tauto

theorem ppLevel_idem (level : String) : ppLevel (ppLevel level) = ppLevel level := by
  rcases ppLevel_mem level with h | h | h <;> rw [h] <;> decide

theorem ppRecommendation_mem (r : String) :
    ppRecommendation r = "skip" ∨ ppRecommendation r = "attempt" := by
  simp only [ppRecommendation]
  split <;> split <;> tauto

theorem ppRecommendation_idem (r : String) :
    ppRecommendation (ppRecommendation r) = ppRecommendation r := by
  rcases ppRecommendation_mem r with h | h <;> rw [h] <;> decide

theorem clamp_nonneg (n : ℚ) : 0 ≤ clamp n 0 100 := by
  unfold clamp
  exact le_min (by norm_num) (le_max_left 0 n)

theorem clamp_le (n : ℚ) : clamp n 0 100 ≤ 100 := min_le_left 100 _

theorem clamp_of_bounds (n : ℚ) (h0 : 0 ≤ n) (h1 : n ≤ 100) : clamp n 0 100 = n := by
  unfold clamp
  rw [max_eq_right h0, min_eq_right h1]

theorem ppConfidence_idem (c : JNum) : ppConfidence (ppConfidence c) = ppConfidence c := by
  cases c with
  | fin q =>
    show JNum.fin (clamp (clamp q 0 100) 0 100) = JNum.fin (clamp q 0 100)
    rw [clamp_of_bounds _ (clamp_nonneg q) (clamp_le q)]
  | nan => decide
  | posInf => decide
  | negInf => decide

/-! ## Helper lemmas: the Source Classifier -/

theorem allowed_facts (n : String) (h : n ∈ ALLOWED_SOURCES) : jsTrim n = n ∧ n ≠ "" := by
  simp only [ALLOWED_SOURCES, List.mem_cons, List.not_mem_nil, or_false] at h
  rcases h with rfl | rfl | rfl | rfl | rfl | rfl | rfl | rfl | rfl <;> exact ⟨by decide, by decide⟩

theorem infer_mem (q f : String) :
    inferSourceFromText q f ∈
      ["PIB", "Govt website", "International org", "The Hindu", "Indian Express",
       "Standard book"] := by
  simp only [inferSourceFromText]
  repeat' split
  all_goals decide

theorem infer_allowed (q f : String) :
    inferSourceFromText q f ∈ ALLOWED_SOURCES ∧ inferSourceFromText q f ≠ "Other" := by
  have h := infer_mem q f
  simp only [List.mem_cons, List.not_mem_nil, or_false] at h
  rcases h with h | h | h | h | h | h <;> rw [h] <;> exact ⟨by decide, by decide⟩

theorem sanitizeSource_name_mem (src : JSValue) (q f : String) :
    (sanitizeSource src q f).name ∈ ALLOWED_SOURCES := by
  simp only [sanitizeSource]
  by_cases hc : ALLOWED_SOURCES.contains (rawSourceName src) = true
  · simp only [if_pos hc]
    split
    · exact (infer_allowed q f).1
    · exact List.mem_of_elem_eq_true hc
  · simp only [if_neg hc]
    split
    · exact (infer_allowed q f).1
    · decide

theorem sanitizeSource_name_ne_other (src : JSValue) (q f : String) :
    (sanitizeSource src q f).name ≠ "Other" := by
  simp only [sanitizeSource]
  by_cases hc : ALLOWED_SOURCES.contains (rawSourceName src) = true
  · simp only [if_pos hc]
    split
    next => exact (infer_allowed q f).2
    next h =>
      simp only [Bool.or_eq_true, beq_iff_eq, not_or] at h
      intro hcontra
      exact h.1 hcontra
  · simp only [if_neg hc]
    have : (("Other" == "Other" || pointerTooGeneric (cleanedSourcePointer src)) = true) := by
      simp
    rw [if_pos this]
    exact (infer_allowed q f).2

theorem pointerTooGeneric_ne (p : String) (h : pointerTooGeneric p = false) : p ≠ "" := by
  unfold pointerTooGeneric at h
  simp only [Bool.or_eq_false_iff, beq_eq_false_iff_ne, ne_eq] at h
  exact h.1.1.1.1

theorem defaultPointer_good (n : String) (hmem : n ∈ ALLOWED_SOURCES) (hno : n ≠ "Other") :
    cleanPointer (defaultPointer n) = defaultPointer n ∧
      pointerTooGeneric (defaultPointer n) = false ∧ defaultPointer n ≠ "" := by
  simp only [ALLOWED_SOURCES, List.mem_cons, List.not_mem_nil, or_false] at hmem
  rcases hmem with rfl | rfl | rfl | rfl | rfl | rfl | rfl | rfl | rfl
  · exact ⟨by decide, by decide, by decide⟩
  · exact ⟨by decide, by decide, by decide⟩
  · exact ⟨by decide, by decide, by decide⟩
  · exact ⟨by decide, by decide, by decide⟩
  · exact ⟨by decide, by decide, by decide⟩
  · exact ⟨by decide, by decide, by decide⟩
  · exact ⟨by decide, by decide, by decide⟩
  · exact ⟨by decide, by decide, by decide⟩
  · exact absurd rfl hno

theorem defaultPointer_ne (n : String) : defaultPointer n ≠ "" := by
  unfold defaultPointer
  repeat' split
  all_goals decide

theorem sanitizeSource_pointer_ne (src : JSValue) (q f : String) :
    (sanitizeSource src q f).pointer ≠ "" := by
  simp only [sanitizeSource]
  by_cases hpg : (cleanedSourcePointer src == "" ||
      pointerTooGeneric (cleanedSourcePointer src)) = true
  · rw [if_pos hpg]
    exact defaultPointer_ne _
  · rw [if_neg hpg]
    simp only [Bool.or_eq_true, beq_iff_eq, not_or] at hpg
    exact hpg.1

theorem sanitizeSource_url_spec (src : JSValue) (q f : String) :
    (sanitizeSource src q f).url =
      (if linkableName (sanitizeSource src q f).name then urlExtract src else none) := by
  simp only [sanitizeSource]

theorem sanitizeSource_url_inv (src : JSValue) (q f : String) :
    (sanitizeSource src q f).url = none ∨
      ∃ u, (sanitizeSource src q f).url = some u ∧ strStarts u "http" = true := by
  rw [sanitizeSource_url_spec]
  by_cases hl : linkableName (sanitizeSource src q f).name = true
  · rw [if_pos hl]
    unfold urlExtract
    split
    · split
      next h => exact Or.inr ⟨_, rfl, h⟩
      next => exact Or.inl rfl
    · exact Or.inl rfl
  · rw [if_neg hl]
    exact Or.inl rfl

theorem sanitizeSource_pointer_spec (src : JSValue) (q f : String) :
    (pointerTooGeneric (cleanedSourcePointer src) = true ∧
      (sanitizeSource src q f).pointer = defaultPointer (sanitizeSource src q f).name) ∨
    (pointerTooGeneric (cleanedSourcePointer src) = false ∧
      (sanitizeSource src q f).pointer = cleanedSourcePointer src) := by
  cases hg : pointerTooGeneric (cleanedSourcePointer src) with
  | true =>
    left
    refine ⟨rfl, ?_⟩
    simp only [sanitizeSource]
    simp [hg]
  | false =>
    right
    refine ⟨rfl, ?_⟩
    have hne := pointerTooGeneric_ne _ hg
    simp only [sanitizeSource]
    simp [hg, hne]

theorem sanitizeSource_url_linkable (src : JSValue) (q f : String) :
    linkableName (sanitizeSource src q f).name = true ∨ (sanitizeSource src q f).url = none := by
  cases hl : linkableName (sanitizeSource src q f).name with
  | true => exact Or.inl rfl
  | false =>
    right
    rw [sanitizeSource_url_spec, hl]
    simp

/-- Evaluation of `rawSourceName` over the re-serialized typed source. -/
theorem rawSourceName_toJS (s : SourceRef) :
    rawSourceName (sourceToJS s) = jsTrim (if s.name = "" then "Other" else s.name) := by
  have hq : qdot (sourceToJS s) "name" = .str s.name := rfl
  unfold rawSourceName
  rw [hq]
  by_cases h : s.name = ""
  · rw [if_pos h, h]
    rfl
  · rw [if_neg h]
    have : (JSValue.str s.name).truthy = true := by
      simp [JSValue.truthy, h]
    rw [this]
    rfl

theorem cleanedSourcePointer_toJS (s : SourceRef) :
    cleanedSourcePointer (sourceToJS s) = cleanPointer s.pointer := by
  have hq : qdot (sourceToJS s) "pointer" = .str s.pointer := rfl
  unfold cleanedSourcePointer
  rw [hq]
  by_cases h : s.pointer = ""
  · have : (JSValue.str s.pointer).truthy = false := by
      simp [JSValue.truthy, h]
    rw [this, h]
    rfl
  · have : (JSValue.str s.pointer).truthy = true := by
      simp [JSValue.truthy, h]
    rw [this]
    rfl

theorem urlExtract_toJS (s : SourceRef) :
    urlExtract (sourceToJS s) =
      (match s.url with
       | some u => if strStarts u "http" then some u else none
       | none => none) := by
  obtain ⟨nm, pt, u⟩ := s
  cases u <;> rfl

/-- A typed source that already satisfies the classifier's output
invariants is a fixed point of `sanitizeSource`. -/
theorem sanitizeSource_fixed (r : SourceRef) (q f : String)
    (hmem : r.name ∈ ALLOWED_SOURCES) (hno : r.name ≠ "Other")
    (hpfix : cleanPointer r.pointer = r.pointer)
    (hgen : pointerTooGeneric r.pointer = false)
    (hurl : r.url = none ∨ ∃ u, r.url = some u ∧ strStarts u "http" = true)
    (hlink : linkableName r.name = true ∨ r.url = none) :
    sanitizeSource (sourceToJS r) q f = r := by
  obtain ⟨htrim, hne⟩ := allowed_facts r.name hmem
  have hraw : rawSourceName (sourceToJS r) = r.name := by
    rw [rawSourceName_toJS, if_neg hne, htrim]
  have hclean : cleanedSourcePointer (sourceToJS r) = r.pointer := by
    rw [cleanedSourcePointer_toJS, hpfix]
  have hcontains : ALLOWED_SOURCES.contains r.name = true :=
    List.elem_eq_true_of_mem hmem
  have hnameb : (r.name == "Other") = false := by
    simp [hno]
  have hpb : (r.pointer == "") = false := by
    simp [pointerTooGeneric_ne _ hgen]
  have hurlx : (if linkableName r.name then urlExtract (sourceToJS r) else none) = r.url := by
    rw [urlExtract_toJS]
    rcases hlink with hl | hnone
    · rw [hl]
      simp only [if_true]
      rcases hurl with hnone | ⟨u, hsome, hhttp⟩
      · rw [hnone]
      · rw [hsome]
        show (if strStarts u "http" = true then some u else none) = some u
        rw [hhttp]
        simp
    · rw [hnone]
      split <;> rfl
  simp only [sanitizeSource]
  rw [hraw, hclean, hcontains]
  simp [hnameb, hgen, hpb, hurlx]

/-- The classifier is idempotent as soon as its pointer cleanup has
stabilised on the raw pointer (true in particular for every pointer it
has itself produced from a generic one). -/
theorem sanitizeSource_idem (src : JSValue) (q f : String)
    (hp : cleanPointer (cleanedSourcePointer src) = cleanedSourcePointer src) :
    sanitizeSource (sourceToJS (sanitizeSource src q f)) q f = sanitizeSource src q f := by
  apply sanitizeSource_fixed
  · exact sanitizeSource_name_mem src q f
  · exact sanitizeSource_name_ne_other src q f
  · rcases sanitizeSource_pointer_spec src q f with ⟨_, hp1⟩ | ⟨_, hp1⟩
    · rw [hp1]
      exact (defaultPointer_good _ (sanitizeSource_name_mem src q f)
        (sanitizeSource_name_ne_other src q f)).1
    · rw [hp1]
      exact hp
  · rcases sanitizeSource_pointer_spec src q f with ⟨_, hp1⟩ | ⟨hg, hp1⟩
    · rw [hp1]
      exact (defaultPointer_good _ (sanitizeSource_name_mem src q f)
        (sanitizeSource_name_ne_other src q f)).2.1
    · rw [hp1]
      exact hg
  · exact sanitizeSource_url_inv src q f
  · exact sanitizeSource_url_linkable src q f

/-! ## Helper lemmas: the Post-Processor is idempotent away from the
whitespace-only-title and unstable-pointer corners -/

theorem ppExample_idem (ex : Option String) : ppExample (ppExample ex) = ppExample ex := by
  cases ex with
  | none => rfl
  | some e =>
    show ppExample (if 0 < (jsTrim e).length then some (jsTrim e) else none) = _
    by_cases h : 0 < (jsTrim e).length
    · rw [if_pos h]
      show (if 0 < (jsTrim (jsTrim e)).length then some (jsTrim (jsTrim e)) else none) = _
      rw [jsTrim_idem, if_pos h]
      show _ = (if 0 < (jsTrim e).length then some (jsTrim e) else none)
      rw [if_pos h]
    · rw [if_neg h]
      show (none : Option String) = _
      show _ = (if 0 < (jsTrim e).length then some (jsTrim e) else none)
      rw [if_neg h]

theorem ppTitle_stable (t : String) (h : t = "" ∨ jsTrim t ≠ "") :
    ppTitle (ppTitle t) = ppTitle t := by
  by_cases ht : t = ""
  · subst ht
    decide
  · have htr : jsTrim t ≠ "" := by
      rcases h with h | h
      · exact absurd h ht
      · exact h
    unfold ppTitle
    have hinner : (if t == "" then "Topic Brief" else t) = t := if_neg (by simpa using ht)
    rw [hinner, if_neg (by simpa using htr)]
    exact jsTrim_idem t

theorem ppFact_idem (qt : String) (f g : Fact)
    (hfix : cleanPointer (cleanPointer f.source.pointer) = cleanPointer f.source.pointer)
    (h : ppFact qt f = some g) : ppFact qt g = some g := by
  simp only [ppFact] at h
  split at h
  · exact absurd h (by simp)
  next hne =>
    rw [Option.some.injEq] at h
    subst h
    simp only [ppFact, jsTrim_idem]
    rw [if_neg (by simpa using hne)]
    simp only [Option.some.injEq, Fact.mk.injEq]
    refine ⟨trivial, ppExample_idem _, ?_⟩
    apply sanitizeSource_idem
    rw [cleanedSourcePointer_toJS]
    exact hfix

theorem ppFacts_idem (qt : String) (l : List Fact)
    (hfix : ∀ fc ∈ l,
      cleanPointer (cleanPointer fc.source.pointer) = cleanPointer fc.source.pointer) :
    (l.filterMap (ppFact qt)).filterMap (ppFact qt) = l.filterMap (ppFact qt) := by
  induction l with
  | nil => rfl
  | cons a t ih =>
    have iht := ih (fun fc hfc => hfix fc (List.mem_cons_of_mem a hfc))
    cases ha : ppFact qt a with
    | none =>
      simp only [List.filterMap_cons, ha]
      exact iht
    | some g =>
      simp only [List.filterMap_cons, ha,
        ppFact_idem qt a g (hfix a (List.mem_cons_self a t)) ha]
      rw [iht]

theorem jnum_cast_pos (n : Nat) : (JNum.fin ((n + 1 : Nat) : ℚ)).gtZero = true := by
  unfold JNum.gtZero
  rw [decide_eq_true_eq]
  exact_mod_cast Nat.succ_pos n

theorem ppStatement_idem (qt : String) (idx : Nat) (s : StatementBlock)
    (hfix : ∀ fc ∈ s.facts,
      cleanPointer (cleanPointer fc.source.pointer) = cleanPointer fc.source.pointer) :
    ppStatement qt idx (ppStatement qt idx s) = ppStatement qt idx s := by
  simp only [ppStatement, StatementBlock.mk.injEq]
  refine ⟨?_, ppVerdict_idem _, ppFacts_idem qt s.facts hfix⟩
  by_cases h : (s.id.isFinite && s.id.gtZero) = true
  · rw [if_pos h, if_pos h]
  · rw [if_neg h, if_pos (by rw [Bool.and_eq_true]; exact ⟨rfl, jnum_cast_pos idx⟩)]

theorem ppStatements_idem (qt : String) (l : List StatementBlock)
    (hfix : ∀ st ∈ l, ∀ fc ∈ st.facts,
      cleanPointer (cleanPointer fc.source.pointer) = cleanPointer fc.source.pointer) :
    ∀ n, ppStatements qt n (ppStatements qt n l) = ppStatements qt n l := by
  induction l with
  | nil => intro n; rfl
  | cons s t ih =>
    intro n
    simp only [ppStatements]
    rw [ppStatement_idem qt n s (hfix s (List.mem_cons_self s t))]
    rw [ih (fun st hst => hfix st (List.mem_cons_of_mem s hst)) (n + 1)]

theorem ppStatements_ne_nil (qt : String) (n : Nat) (l : List StatementBlock) (h : l ≠ []) :
    ppStatements qt n l ≠ [] := by
  cases l with
  | nil => exact absurd rfl h
  | cons s t => simp [ppStatements]

/-- The Post-Processor is idempotent on every analysis whose topic-brief
title is not a non-empty whitespace-only string and whose fact-source
pointers are stable under a second pointer cleanup. -/
theorem postProcess_idem (a : QuestionAnalysisV1) (input : GenerateInput)
    (htitle : a.topic_brief.title = "" ∨ jsTrim a.topic_brief.title ≠ "")
    (hptr : ∀ st ∈ a.statements, ∀ fc ∈ st.facts,
      cleanPointer (cleanPointer fc.source.pointer) = cleanPointer fc.source.pointer) :
    postProcess (postProcess a input) input = postProcess a input := by
  have hfix0 : ∀ st ∈ (if a.statements.isEmpty then
      ([⟨.fin 1, "unknown", []⟩] : List StatementBlock) else a.statements),
      ∀ fc ∈ st.facts,
      cleanPointer (cleanPointer fc.source.pointer) = cleanPointer fc.source.pointer := by
    split
    · intro st hst fc hfc
      simp only [List.mem_singleton] at hst
      subst hst
      simp only [List.not_mem_nil] at hfc
    · exact hptr
  have hne : ppStatements input.questionText 0
      (if a.statements.isEmpty then ([⟨.fin 1, "unknown", []⟩] : List StatementBlock)
       else a.statements) ≠ [] := by
    apply ppStatements_ne_nil
    split
    · simp
    next h => simpa [List.isEmpty_iff] using h
  simp only [postProcess, QuestionAnalysisV1.mk.injEq, TopicBrief.mk.injEq,
    StrategyV1.mk.injEq, Difficulty.mk.injEq, AiVerdict.mk.injEq]
  repeat' apply And.intro
  all_goals first
    | rfl
    | trivial
    | exact ppTitle_stable _ htitle
    | exact ppStrList_idem _
    | exact ppLevel_idem _
    | exact ppRecommendation_idem _
    | exact jsTrim_idem _
    | exact ppConfidence_idem _
    | (rw [if_neg (by simpa [List.isEmpty_iff] using hne)]
       exact ppStatements_idem input.questionText _ hfix0 0)

/-! ## Helper lemmas: invariants the Normalizer establishes by itself -/

theorem str_ne_of_len_pos (s : String) (h : 0 < s.length) : s ≠ "" := by
  intro h'
  subst h'
  exact absurd h (by decide)

theorem mem_filter_ne (l : List String) (b : String)
    (hb : b ∈ l.filter (fun x => !(x == ""))) : b ≠ "" := by
  rw [List.mem_filter] at hb
  simpa using hb.2

theorem normalizeSourceName_mem (n : JSValue) : normalizeSourceName n ∈ ALLOWED_SOURCES := by
  simp only [normalizeSourceName]
  split
  next h => exact List.mem_of_elem_eq_true h
  next => decide

theorem normStatement_id_pos (idx : Nat) (s : JSValue) :
    ∃ q, (normStatement idx s).id = JNum.fin q ∧ 0 < q := by
  have hpos : (0 : ℚ) < ((idx + 1 : Nat) : ℚ) := by exact_mod_cast Nat.succ_pos idx
  simp only [normStatement]
  split
  next qv _ =>
    by_cases h : (0 : ℚ) < qv
    · exact ⟨qv, if_pos h, h⟩
    · exact ⟨_, if_neg h, hpos⟩
  next => exact ⟨_, rfl, hpos⟩

theorem normStatement_facts (idx : Nat) (s : JSValue) (fc : Fact)
    (hfc : fc ∈ (normStatement idx s).facts) :
    fc.fact ≠ "" ∧ fc.source.name ∈ ALLOWED_SOURCES := by
  simp only [normStatement] at hfc
  rw [List.mem_filter] at hfc
  obtain ⟨hm, hlen⟩ := hfc
  rw [List.mem_map] at hm
  obtain ⟨f0, _, rfl⟩ := hm
  constructor
  · exact str_ne_of_len_pos _ (of_decide_eq_true hlen)
  · exact normalizeSourceName_mem _

theorem normStatements_mem (l : List JSValue) : ∀ n st, st ∈ normStatements n l →
    ∃ idx s, st = normStatement idx s := by
  induction l with
  | nil =>
    intro n st h
    exact absurd h (List.not_mem_nil st)
  | cons a t ih =>
    intro n st h
    simp only [normStatements] at h
    rcases List.mem_cons.mp h with rfl | h
    · exact ⟨n, a, rfl⟩
    · exact ih (n + 1) st h

theorem normTopicBrief_bullets (tb : JSValue) (b : String)
    (hb : b ∈ (normTopicBrief tb).bullets) : b ≠ "" := by
  cases tb with
  | obj fs => exact mem_filter_ne _ _ hb
  | arr xs => exact mem_filter_ne _ _ hb
  | str s => exact mem_filter_ne _ _ hb
  | null => exact absurd hb (List.not_mem_nil b)
  | undefined => exact absurd hb (List.not_mem_nil b)
  | bool v => exact absurd hb (List.not_mem_nil b)
  | num n => exact absurd hb (List.not_mem_nil b)

/-! ## Helper lemmas: shape of the Retry Orchestrator's successes -/

/-- Every success of `generateQuestionAnalysis` is a post-processed
normalized value (one of the two attempts or the fallback). -/
theorem generate_ok_form (oracle : ChatRequest → Except GenError JSValue)
    (input : GenerateInput) (r : QuestionAnalysisV1)
    (h : generateQuestionAnalysis oracle input = .ok r) :
    ∃ raw, r = postProcess (normalizeQuestionAnalysisV1 raw) input := by
  simp only [generateQuestionAnalysis] at h
  split at h
  · cases h
  · split at h
    · split at h
      · cases h
      · split at h
        · rw [Except.ok.injEq] at h
          exact ⟨_, h.symm⟩
        · rw [Except.ok.injEq] at h
          exact ⟨_, h.symm⟩
    · rw [Except.ok.injEq] at h
      exact ⟨_, h.symm⟩

theorem postProcess_statements_ne_nil (a : QuestionAnalysisV1) (input : GenerateInput) :
    (postProcess a input).statements ≠ [] := by
  simp only [postProcess]
  apply ppStatements_ne_nil
  split
  · simp
  next h => simpa [List.isEmpty_iff] using h

theorem ppStatement_placeholder (qt : String) :
    ppStatement qt 0 ⟨.fin 1, "unknown", []⟩ = ⟨.fin 1, "unknown", []⟩ := by
  simp only [ppStatement, StatementBlock.mk.injEq]
  refine ⟨?_, ?_, rfl⟩
  · rw [if_pos (by decide)]
  · decide

/-! ## Concrete fixtures used by witnesses and counterexamples -/

/-- A request fixture. -/
def inputW : GenerateInput :=
  { questionText := "q", options := ⟨none, none, none, none⟩, officialAnswer := .B }

/-- An oracle whose generator always returns an empty JSON object (both
attempts are rejected by the Quality Gate). -/
def oracleW : ChatRequest → Except GenError JSValue := fun _ => .ok (.obj .fnil)

/-- The fallback result for `inputW`. -/
def resultW : QuestionAnalysisV1 :=
  postProcess (normalizeQuestionAnalysisV1 (fallbackRaw inputW)) inputW

/-- A substantive generator response that passes the Quality Gate. -/
def strongResponse : JSValue :=
  .obj (jsFieldsOf
    [ ("correct_answer", .str "C")
    , ("topic_brief", .obj (jsFieldsOf
        [ ("title", .str "Finance Commission")
        , ("bullets", .arr (jsListOf
            [ .str "Article 280 mandates a Finance Commission every five years."
            , .str "It recommends the vertical devolution share to states." ])) ]))
    , ("statements", .arr (jsListOf
        [ .obj (jsFieldsOf
            [ ("id", .num (.fin 1))
            , ("verdict", .str "correct")
            , ("facts", .arr (jsListOf
                [ .obj (jsFieldsOf
                    [ ("fact", .str "The 15th Finance Commission recommended 41 percent devolution.")
                    , ("source", .obj (jsFieldsOf
                        [ ("name", .str "Govt website")
                        , ("pointer", .str "Fifteenth Finance Commission report, Volume I") ])) ])
                , .obj (jsFieldsOf
                    [ ("fact", .str "Article 280(1) fixes the five-year constitution cycle.")
                    , ("source", .obj (jsFieldsOf
                        [ ("name", .str "NCERT")
                        , ("pointer", .str "Indian Constitution at Work, fiscal federalism unit") ])) ]) ])) ]) ]))
    , ("strategy", .obj (jsFieldsOf
        [ ("difficulty", .obj (jsFieldsOf
            [ ("level", .str "easy")
            , ("why", .arr (jsListOf [ .str "Single stable constitutional fact." ])) ]))
        , ("exam_strategy", .arr (jsListOf
            [ .str "Anchor on Article 280 and the devolution percentage."
            , .str "Eliminate options that contradict the five-year cycle." ]))
        , ("logical_deduction", .arr (jsListOf
            [ .str "The percentage is fixed by the latest commission report."
            , .str "A constitutional body cannot be ad hoc." ]))
        , ("ai_verdict", .obj (jsFieldsOf
            [ ("recommendation", .str "attempt")
            , ("rationale", .str "Stable, well-known constitutional anchors.")
            , ("confidence", .num (.fin 88)) ])) ])) ])

/-- An oracle that always returns `strongResponse`. -/
def oracleStrong : ChatRequest → Except GenError JSValue := fun _ => .ok strongResponse

/-- A raw generator value that exercises several §3 corner cases at once:
no `correct_answer`, a whitespace-only bullet, a non-integer id, a raw
pointer that collapses to the empty string, and a url on a non-linkable
source. -/
def rawC3 : JSValue :=
  .obj (jsFieldsOf
    [ ("topic_brief", .obj (jsFieldsOf [("bullets", .arr (jsListOf [.str " "]))]))
    , ("statements", .arr (jsListOf
        [ .obj (jsFieldsOf
            [ ("id", .num (.fin (mkRat 5 2)))
            , ("facts", .arr (jsListOf
                [ .obj (jsFieldsOf
                    [ ("fact", .str "x")
                    , ("source", .obj (jsFieldsOf
                        [ ("name", .str "NCERT")
                        , ("pointer", .str "•")
                        , ("url", .str "https://e.org") ])) ]) ])) ]) ])) ])

/-- A raw value carrying only an `ai_verdict.confidence`. -/
def confRaw (v : JSValue) : JSValue :=
  .obj (jsFieldsOf
    [ ("strategy", .obj (jsFieldsOf
        [ ("ai_verdict", .obj (jsFieldsOf [("confidence", v)])) ])) ])

/-- A raw value whose only statement carries the id as the string `"5"`. -/
def rawC6 : JSValue :=
  .obj (jsFieldsOf
    [ ("statements", .arr (jsListOf [ .obj (jsFieldsOf [("id", .str "5")]) ])) ])

/-- A raw value whose second statement (0-based position 1) carries the
Roman-numeral id `"II"`. -/
def rawC6II : JSValue :=
  .obj (jsFieldsOf
    [ ("statements", .arr (jsListOf
        [ .obj (jsFieldsOf [("id", .num (.fin 1))])
        , .obj (jsFieldsOf [("id", .str "II")]) ])) ])

/-- A raw source whose name is the allowed literal `"Other"` next to a
perfectly specific pointer. -/
def srcOther : JSValue :=
  .obj (jsFieldsOf
    [("name", .str "Other"), ("pointer", .str "Specific treaty, Article 12")])

/-- The spec's classifier scenario: an unknown name, a boilerplate
pointer, and question text mentioning a Ministry of Finance
notification. -/
def srcScenario : JSValue :=
  .obj (jsFieldsOf [("name", .str "random"), ("pointer", .str "chapter on topic")])

def scenarioQuestion : String :=
  "Recently, a Ministry of Finance notification revised the norms."

/-- An analysis whose topic-brief title is whitespace-only. -/
def aWsTitle : QuestionAnalysisV1 :=
  { correct_answer := "A"
    topic_brief := { title := " ", bullets := [] }
    statements := []
    strategy :=
      { difficulty := { level := "moderate", why := [] }
        exam_strategy := []
        logical_deduction := []
        ai_verdict := { recommendation := "attempt", rationale := "", confidence := .fin 60 } } }

/-- A well-behaved analysis fixture (trimmed title, one statement with a
stable source pointer). -/
def aStable : QuestionAnalysisV1 :=
  { correct_answer := "A"
    topic_brief := { title := "Finance Commission", bullets := ["Article 280 basics."] }
    statements :=
      [ { id := .fin 1
          verdict := "correct"
          facts :=
            [ { fact := "Article 280 mandates the commission."
                «example» := none
                source :=
                  { name := "NCERT"
                    pointer := "Indian Constitution at Work, fiscal federalism unit"
                    url := none } } ] } ]
    strategy :=
      { difficulty := { level := "easy", why := ["Stable fact."] }
        exam_strategy := ["Anchor on Article 280."]
        logical_deduction := ["Constitutional bodies are periodic."]
        ai_verdict := { recommendation := "attempt", rationale := "Known anchors.", confidence := .fin 80 } } }

/-- An analysis with no statements at all. -/
def aEmpty : QuestionAnalysisV1 :=
  { correct_answer := ""
    topic_brief := { title := "Topic Brief", bullets := [] }
    statements := []
    strategy :=
      { difficulty := { level := "moderate", why := [] }
        exam_strategy := []
        logical_deduction := []
        ai_verdict := { recommendation := "attempt", rationale := "", confidence := .fin 60 } } }

/-! ## The claims -/

/-- C1: `postProcess` always overwrites `correct_answer` with the
request's official answer, and since every path of
`generateQuestionAnalysis` (each generation attempt and the fallback)
returns a post-processed object, every analysis the pipeline delivers to
the caller carries the official answer, regardless of what the generator
claimed. -/
theorem spec_C1_answer_override :
    (∀ (a : QuestionAnalysisV1) (input : GenerateInput),
      (postProcess a input).correct_answer = input.officialAnswer.toStr) ∧
    (∀ (oracle : ChatRequest → Except GenError JSValue) (input : GenerateInput)
        (r : QuestionAnalysisV1),
      generateQuestionAnalysis oracle input = .ok r →
      r.correct_answer = input.officialAnswer.toStr) := by
  constructor
  · intro a input
    rfl
  · intro oracle input r h
    obtain ⟨raw, rfl⟩ := generate_ok_form oracle input r h
    rfl

/-- Witness for C1: with a generator that returns empty objects the
pipeline reaches the fallback, and the delivered analysis carries the
request's official answer `B`. -/
theorem spec_C1_answer_override_witness :
    generateQuestionAnalysis oracleW inputW = .ok resultW ∧ resultW.correct_answer = "B" :=
  ⟨by decide, spec_C1_answer_override.2 oracleW inputW resultW (by decide)⟩

/-- C2: the Normalizer is total — for every input value, of any shape
whatsoever, the explicit embedding `normalizeE` (in which `none` models a
thrown `TypeError` on a nullish property access) returns `some` analysis:
its error branch is unreachable, so `normalizeQuestionAnalysisV1` never
throws. -/
theorem spec_C2_normalizer_total (raw : JSValue) : (normalizeE raw).isSome = true := by
  obtain ⟨_, _, _, _, _, _, _, _, h⟩ := normalizeE_eq raw
  rw [h]
  rfl

/-- C3 counterexample: `normalize` alone does not establish all §3
invariants.  On this single raw input the normalized value has
`correct_answer = ""` (not one of A/B/C/D), keeps the whitespace-only
bullet `" "`, keeps the non-integer id `5/2` (which even survives the
Post-Processor, whose check keeps any positive finite id), produces an
empty source pointer from the raw pointer `"•"`, and keeps a url on the
non-linkable source NCERT. -/
theorem spec_C3_counterexample :
    (normalizeQuestionAnalysisV1 rawC3).correct_answer = "" ∧
    ("" : String) ∉ ["A", "B", "C", "D"] ∧
    (normalizeQuestionAnalysisV1 rawC3).topic_brief.bullets = [" "] ∧
    jsTrim " " = "" ∧
    (normalizeQuestionAnalysisV1 rawC3).statements.map (·.id) = [.fin (mkRat 5 2)] ∧
    (postProcess (normalizeQuestionAnalysisV1 rawC3) inputW).statements.map (·.id) =
      [.fin (mkRat 5 2)] ∧
    (mkRat 5 2).isInt = false ∧
    (normalizeQuestionAnalysisV1 rawC3).statements.map (·.facts.map (·.source.pointer)) =
      [[""]] ∧
    (normalizeQuestionAnalysisV1 rawC3).statements.map (·.facts.map (·.source.url)) =
      [[some "https://e.org"]] ∧
    linkableName "NCERT" = false := by
  decide

/-- C3 (amended): for every input `x`, `normalize(x)` alone guarantees
only these §3 invariants: bullets (and the strategy string lists) contain
no empty strings, every statement id is a positive finite number, and
every fact has non-empty fact text and a source name from the closed
9-value set.  The other §3 properties are not guaranteed by `normalize`
alone: the correct answer need not be one of {A,B,C,D}, bullets may be
whitespace-only, a statement id may be a non-integer (and stays one even
through the Post-Processor, which keeps any positive finite id), a source
pointer may be empty, and a url is kept even on a non-linkable source
(see the counterexample). -/
theorem spec_C3_normalizer_invariants (raw : JSValue) :
    (∀ b ∈ (normalizeQuestionAnalysisV1 raw).topic_brief.bullets, b ≠ "") ∧
    (∀ st ∈ (normalizeQuestionAnalysisV1 raw).statements,
      (∃ q, st.id = JNum.fin q ∧ 0 < q) ∧
      ∀ fc ∈ st.facts, fc.fact ≠ "" ∧ fc.source.name ∈ ALLOWED_SOURCES) ∧
    (∀ w ∈ (normalizeQuestionAnalysisV1 raw).strategy.difficulty.why, w ≠ "") ∧
    (∀ w ∈ (normalizeQuestionAnalysisV1 raw).strategy.exam_strategy, w ≠ "") ∧
    (∀ w ∈ (normalizeQuestionAnalysisV1 raw).strategy.logical_deduction, w ≠ "") := by
  obtain ⟨tb, stm, lvl, why, ex, ld, ca, st, hcore⟩ := normalize_eq_core raw
  rw [hcore]
  refine ⟨?_, ?_, ?_, ?_, ?_⟩
  · intro b hb
    exact normTopicBrief_bullets tb b hb
  · intro st' hst'
    obtain ⟨idx, s, rfl⟩ := normStatements_mem (asArray stm) 0 st' hst'
    exact ⟨normStatement_id_pos idx s, fun fc hfc => normStatement_facts idx s fc hfc⟩
  · intro w hw
    exact mem_filter_ne _ _ hw
  · intro w hw
    exact mem_filter_ne _ _ hw
  · intro w hw
    exact mem_filter_ne _ _ hw

/-- Witness for C3 (amended), instantiated on `rawC3`: the kept
whitespace bullet is nevertheless not the empty string. -/
theorem spec_C3_normalizer_invariants_witness : (" " : String) ≠ "" :=
  (spec_C3_normalizer_invariants rawC3).1 " " (by decide)

/-- C4: the Retry Orchestrator makes at most 2 generation attempts — its
result depends only on the oracle's answers to the attempt-1 and
attempt-2 requests; the attempt-2 request uses a strictly higher sampling
temperature (0.35 over 0.2); a first attempt whose post-processed result
passes the Quality Gate is returned immediately (the result is then
independent of everything but that first response); and when both
attempts are rejected the deterministic fallback analysis, normalized and
run through `postProcess`, is returned as a normal `ok` value. -/
theorem spec_C4_retry_policy :
    (∀ input : GenerateInput,
      (mkChatRequest (buildPrompt input) 1).temperature <
        (mkChatRequest (buildPrompt input) 2).temperature) ∧
    (∀ (o o' : ChatRequest → Except GenError JSValue) (input : GenerateInput),
      o (mkChatRequest (buildPrompt input) 1) = o' (mkChatRequest (buildPrompt input) 1) →
      o (mkChatRequest (buildPrompt input) 2) = o' (mkChatRequest (buildPrompt input) 2) →
      generateQuestionAnalysis o input = generateQuestionAnalysis o' input) ∧
    (∀ (o : ChatRequest → Except GenError JSValue) (input : GenerateInput) (raw1 : JSValue),
      o (mkChatRequest (buildPrompt input) 1) = .ok raw1 →
      analysisLooksWeak (postProcess (normalizeQuestionAnalysisV1 raw1) input) = false →
      generateQuestionAnalysis o input =
        .ok (postProcess (normalizeQuestionAnalysisV1 raw1) input)) ∧
    (∀ (o : ChatRequest → Except GenError JSValue) (input : GenerateInput) (raw1 raw2 : JSValue),
      o (mkChatRequest (buildPrompt input) 1) = .ok raw1 →
      o (mkChatRequest (buildPrompt input) 2) = .ok raw2 →
      analysisLooksWeak (postProcess (normalizeQuestionAnalysisV1 raw1) input) = true →
      analysisLooksWeak (postProcess (normalizeQuestionAnalysisV1 raw2) input) = true →
      generateQuestionAnalysis o input =
        .ok (postProcess (normalizeQuestionAnalysisV1 (fallbackRaw input)) input)) := by
  refine ⟨?_, ?_, ?_, ?_⟩
  · intro input
    show mkRat 2 10 < mkRat 35 100
    decide
  · intro o o' input h1 h2
    simp only [generateQuestionAnalysis]
    rw [h1, h2]
  · intro o input raw1 h1 hw
    simp only [generateQuestionAnalysis]
    rw [h1]
    simp [hw]
  · intro o input raw1 raw2 h1 h2 hw1 hw2
    simp only [generateQuestionAnalysis]
    rw [h1, h2]
    simp [hw1, hw2]

/-- Witness for C4: the temperatures on a concrete request; result
determinism for a concrete oracle; a passing first attempt returned
as-is; and a doubly-rejected run returning the post-processed fallback. -/
theorem spec_C4_retry_policy_witness :
    (mkChatRequest (buildPrompt inputW) 1).temperature <
      (mkChatRequest (buildPrompt inputW) 2).temperature ∧
    generateQuestionAnalysis oracleW inputW = generateQuestionAnalysis oracleW inputW ∧
    generateQuestionAnalysis oracleStrong inputW =
      .ok (postProcess (normalizeQuestionAnalysisV1 strongResponse) inputW) ∧
    generateQuestionAnalysis oracleW inputW =
      .ok (postProcess (normalizeQuestionAnalysisV1 (fallbackRaw inputW)) inputW) :=
  ⟨spec_C4_retry_policy.1 inputW,
   spec_C4_retry_policy.2.1 oracleW oracleW inputW rfl rfl,
   spec_C4_retry_policy.2.2.1 oracleStrong inputW strongResponse rfl (by decide),
   spec_C4_retry_policy.2.2.2 oracleW inputW (.obj .fnil) (.obj .fnil) rfl rfl
     (by decide) (by decide)⟩

/-- C5 counterexample: the claim says confidence is always an *integer*
in [0,100]; but the raw (dyadic, so double-representable) confidence
47.5 is finite, survives both the Normalizer's clamp and the
Post-Processor's re-clamp unchanged, and is not an integer. -/
theorem spec_C5_counterexample :
    (normalizeQuestionAnalysisV1 (confRaw (.num (.fin (mkRat 95 2))))).strategy.ai_verdict.confidence =
      .fin (mkRat 95 2) ∧
    (postProcess (normalizeQuestionAnalysisV1 (confRaw (.num (.fin (mkRat 95 2))))) inputW).strategy.ai_verdict.confidence =
      .fin (mkRat 95 2) ∧
    (mkRat 95 2).isInt = false := by
  decide

/-- C5 (amended): for every input the normalized confidence is a finite
number in [0,100] (an integer only when the raw value was); a numeric
input is clamped into [0,100] (raw −5 gives 0, raw 500 gives 100) and a
non-numeric input (such as the string "high") gives the default 60; the
bounds hold both after the Normalizer and after the Post-Processor's
re-clamp. -/
theorem spec_C5_confidence_clamped :
    (∀ raw : JSValue, ∃ q : ℚ,
      (normalizeQuestionAnalysisV1 raw).strategy.ai_verdict.confidence = .fin q ∧
      0 ≤ q ∧ q ≤ 100) ∧
    (∀ (a : QuestionAnalysisV1) (input : GenerateInput), ∃ q : ℚ,
      (postProcess a input).strategy.ai_verdict.confidence = .fin q ∧ 0 ≤ q ∧ q ≤ 100) ∧
    (normalizeQuestionAnalysisV1 (confRaw (.num (.fin ((-5 : Int) : ℚ))))).strategy.ai_verdict.confidence =
      .fin 0 ∧
    (normalizeQuestionAnalysisV1 (confRaw (.num (.fin ((500 : Int) : ℚ))))).strategy.ai_verdict.confidence =
      .fin 100 ∧
    (normalizeQuestionAnalysisV1 (confRaw (.str "high"))).strategy.ai_verdict.confidence =
      .fin 60 := by
  refine ⟨?_, ?_, by decide, by decide, by decide⟩
  · intro raw
    obtain ⟨tb, stm, lvl, why, ex, ld, ca, st, hcore⟩ := normalize_eq_core raw
    rw [hcore]
    exact ⟨_, rfl, clamp_nonneg _, clamp_le _⟩
  · intro a input
    show ∃ q : ℚ, ppConfidence a.strategy.ai_verdict.confidence = .fin q ∧ 0 ≤ q ∧ q ≤ 100
    cases a.strategy.ai_verdict.confidence with
    | fin q => exact ⟨_, rfl, clamp_nonneg _, clamp_le _⟩
    | nan => exact ⟨60, rfl, by norm_num, by norm_num⟩
    | posInf => exact ⟨60, rfl, by norm_num, by norm_num⟩
    | negInf => exact ⟨60, rfl, by norm_num, by norm_num⟩

/-- C6 counterexample: the claim says an id is accepted exactly when it
*parses* as a finite number greater than zero.  The raw id `"5"` parses
as the finite number 5 > 0, yet the Normalizer rejects it (its check is
`typeof id === "number"`, no string parsing) and assigns the 1-based
position 1 instead of 5. -/
theorem spec_C6_counterexample :
    jsToNumber (.str "5") = .fin 5 ∧
    (JNum.fin 5).isFinite = true ∧ (JNum.fin 5).gtZero = true ∧
    (normalizeQuestionAnalysisV1 rawC6).statements.map (·.id) = [.fin 1] ∧
    JNum.fin 1 ≠ JNum.fin 5 := by
  decide

/-- C6 (amended): the Normalizer accepts a statement's raw id exactly
when it is a finite *number value* greater than zero (numeric strings
are never parsed); otherwise the statement's 1-based position becomes
its id.  In particular the Roman-numeral id "II" at 0-based position 1
normalizes to 2. -/
theorem spec_C6_id_rule :
    (∀ (idx : Nat) (s : JSValue) (q : ℚ),
      qdot s "id" = .num (.fin q) → 0 < q → (normStatement idx s).id = .fin q) ∧
    (∀ (idx : Nat) (s : JSValue),
      (∀ q : ℚ, qdot s "id" = .num (.fin q) → ¬(0 < q)) →
      (normStatement idx s).id = .fin ((idx + 1 : Nat) : ℚ)) ∧
    (normalizeQuestionAnalysisV1 rawC6II).statements.map (·.id) = [.fin 1, .fin 2] := by
  refine ⟨?_, ?_, by decide⟩
  · intro idx s q hq hpos
    simp only [normStatement, hq]
    rw [if_pos hpos]
  · intro idx s hq
    simp only [normStatement]
    split
    next qv heq => rw [if_neg (hq qv heq)]
    next => rfl

/-- Witness for C6 (amended): a finite positive numeric id 7 is kept,
and a Roman-numeral id at 0-based position 3 becomes 4. -/
theorem spec_C6_id_rule_witness :
    (normStatement 0 (.obj (jsFieldsOf [("id", .num (.fin 7))]))).id = .fin 7 ∧
    (normStatement 3 (.obj (jsFieldsOf [("id", .str "II")]))).id = .fin 4 :=
  ⟨spec_C6_id_rule.1 0 _ 7 rfl (by norm_num),
   spec_C6_id_rule.2.1 3 _ (fun q hq => JSValue.noConfusion hq)⟩

/-- C7 counterexample: the claim says re-inference happens iff the raw
name is outside the 9 allowed values OR the cleaned pointer is too
generic.  The raw name `"Other"` *is* one of the 9 allowed values and
this pointer is specific, yet the classifier still re-infers (its test is
`name === "Other" || generic`), replacing the name with "Standard book". -/
theorem spec_C7_counterexample :
    rawSourceName srcOther = "Other" ∧
    ("Other" : String) ∈ ALLOWED_SOURCES ∧
    pointerTooGeneric (cleanedSourcePointer srcOther) = false ∧
    (sanitizeSource srcOther "" "").name = "Standard book" ∧
    ("Standard book" : String) ≠ "Other" := by
  decide

/-- C7 (amended): `sanitizeSource` ignores the supplied name and
re-infers the category from the combined question+fact text exactly when
the raw name is not one of the 9 allowed values, OR it is the literal
"Other", OR the cleaned pointer is too generic; otherwise the raw name
is kept.  When no keyword cluster fires, the inferred bucket is
"Standard book".  In the spec's scenario (name "random", pointer
"chapter on topic", question text naming a Ministry of Finance
notification) the source is reassigned to "Govt website" with its
synthesized canonical pointer. -/
theorem spec_C7_source_reclassification :
    (∀ (src : JSValue) (q f : String),
      (rawSourceName src ∉ ALLOWED_SOURCES ∨ rawSourceName src = "Other" ∨
        pointerTooGeneric (cleanedSourcePointer src) = true) →
      (sanitizeSource src q f).name = inferSourceFromText q f) ∧
    (∀ (src : JSValue) (q f : String),
      rawSourceName src ∈ ALLOWED_SOURCES → rawSourceName src ≠ "Other" →
      pointerTooGeneric (cleanedSourcePointer src) = false →
      (sanitizeSource src q f).name = rawSourceName src) ∧
    (∀ q f : String,
      (strContains (jsLower (q ++ " " ++ f)) "pib" ||
        strContains (jsLower (q ++ " " ++ f)) "press information bureau" ||
        strContains (jsLower (q ++ " " ++ f)) "press release") = false →
      govtHints.any (fun k => strContains (jsLower (q ++ " " ++ f)) k) = false →
      intlHints.any (fun k => strContains (jsLower (q ++ " " ++ f)) k) = false →
      strContains (jsLower (q ++ " " ++ f)) "the hindu" = false →
      strContains (jsLower (q ++ " " ++ f)) "indian express" = false →
      inferSourceFromText q f = "Standard book") ∧
    sanitizeSource srcScenario scenarioQuestion "" =
      { name := "Govt website", pointer := "Govt website • Official page/document",
        url := none } := by
  refine ⟨?_, ?_, ?_, by decide⟩
  · intro src q f H
    have hcond : (((if ALLOWED_SOURCES.contains (rawSourceName src) then rawSourceName src
        else "Other") == "Other") ||
        pointerTooGeneric (cleanedSourcePointer src)) = true := by
      rcases H with h | h | h
      · have hc : ALLOWED_SOURCES.contains (rawSourceName src) = false := by
          cases hcc : ALLOWED_SOURCES.contains (rawSourceName src)
          · rfl
          · exact absurd (List.mem_of_elem_eq_true hcc) h
        rw [hc]
        simp
      · rw [h]
        simp
      · rw [h]
        simp
    simp only [sanitizeSource]
    rw [if_pos hcond]
  · intro src q f hmem hno hgen
    have hc : ALLOWED_SOURCES.contains (rawSourceName src) = true :=
      List.elem_eq_true_of_mem hmem
    simp only [sanitizeSource]
    rw [hc]
    have hcond : (((if true then rawSourceName src else "Other") == "Other") ||
        pointerTooGeneric (cleanedSourcePointer src)) = false := by
      simp [hno, hgen]
    rw [if_neg (by rw [hcond]; simp)]
    simp
  · intro q f h1 h2 h3 h4 h5
    simp only [inferSourceFromText]
    rw [h1, h2, h3, h4, h5]
    rfl

/-- Witness for C7 (amended): a disallowed name is re-inferred; an
allowed, non-Other name with a specific pointer is kept; and text with
no keyword cluster infers "Standard book". -/
theorem spec_C7_source_reclassification_witness :
    (sanitizeSource (.obj (jsFieldsOf
        [("name", .str "zzz"), ("pointer", .str "Some very specific pointer")])) "" "").name =
      inferSourceFromText "" "" ∧
    (sanitizeSource (.obj (jsFieldsOf
        [("name", .str "NCERT"), ("pointer", .str "NCERT history volume two, page 99")])) "" "").name =
      "NCERT" ∧
    inferSourceFromText "" "" = "Standard book" :=
  ⟨spec_C7_source_reclassification.1 _ "" "" (Or.inl (by decide)),
   (spec_C7_source_reclassification.2.1 _ "" "" (by decide) (by decide) (by decide)).trans
     (by decide),
   spec_C7_source_reclassification.2.2.1 "" "" (by decide) (by decide) (by decide) (by decide)
     (by decide)⟩

/-- C8: for every raw source value and texts, `sanitizeSource` returns a
name from the closed 9-value set, a non-empty pointer, and a url only
when the resolved name is in the linkable subset {PIB, Govt website,
International org, The Hindu, Indian Express} — even when the raw data
supplied a url. -/
theorem spec_C8_source_closed_set (src : JSValue) (q f : String) :
    (sanitizeSource src q f).name ∈ ALLOWED_SOURCES ∧
    (sanitizeSource src q f).pointer ≠ "" ∧
    (linkableName (sanitizeSource src q f).name = true ∨ (sanitizeSource src q f).url = none) :=
  ⟨sanitizeSource_name_mem src q f, sanitizeSource_pointer_ne src q f,
   sanitizeSource_url_linkable src q f⟩

/-- C9 counterexample: `postProcess` is not idempotent.  On an analysis
whose topic-brief title is the whitespace-only `" "`, the first pass
produces the empty title and a second pass turns it into "Topic Brief",
so applying `postProcess` twice differs from applying it once. -/
theorem spec_C9_counterexample :
    postProcess (postProcess aWsTitle inputW) inputW ≠ postProcess aWsTitle inputW ∧
    (postProcess aWsTitle inputW).topic_brief.title = "" ∧
    (postProcess (postProcess aWsTitle inputW) inputW).topic_brief.title = "Topic Brief" := by
  decide

/-- C9 (amended): `postProcess` is idempotent on every analysis whose
topic-brief title is empty or not whitespace-only, and whose fact-source
pointers are stable under a second run of the pointer cleanup (the
classifier's bullet-pair rewrite can otherwise keep shortening a pointer
such as "A • • • B"); all other fields re-normalize to themselves. -/
theorem spec_C9_postprocess_idempotent (a : QuestionAnalysisV1) (input : GenerateInput)
    (htitle : a.topic_brief.title = "" ∨ jsTrim a.topic_brief.title ≠ "")
    (hptr : ∀ st ∈ a.statements, ∀ fc ∈ st.facts,
      cleanPointer (cleanPointer fc.source.pointer) = cleanPointer fc.source.pointer) :
    postProcess (postProcess a input) input = postProcess a input :=
  postProcess_idem a input htitle hptr

/-- Witness for C9 (amended): a concrete well-formed analysis on which
double post-processing equals single post-processing. -/
theorem spec_C9_postprocess_idempotent_witness :
    postProcess (postProcess aStable inputW) inputW = postProcess aStable inputW :=
  spec_C9_postprocess_idempotent aStable inputW (by decide) (by decide)

/-- C10: the post-processed analysis always contains at least one
statement — an empty incoming list is replaced by the placeholder
statement with id 1, verdict "unknown" and no facts — so the analysis
the pipeline delivers to the caller never has an empty statements
list. -/
theorem spec_C10_nonempty_statements :
    (∀ (a : QuestionAnalysisV1) (input : GenerateInput),
      (postProcess a input).statements ≠ []) ∧
    (∀ (a : QuestionAnalysisV1) (input : GenerateInput), a.statements = [] →
      (postProcess a input).statements = [⟨.fin 1, "unknown", []⟩]) ∧
    (∀ (oracle : ChatRequest → Except GenError JSValue) (input : GenerateInput)
        (r : QuestionAnalysisV1),
      generateQuestionAnalysis oracle input = .ok r → r.statements ≠ []) := by
  refine ⟨fun a input => postProcess_statements_ne_nil a input, ?_, ?_⟩
  · intro a input h
    simp only [postProcess, h]
    show ppStatements input.questionText 0
      (if ([] : List StatementBlock).isEmpty then [⟨.fin 1, "unknown", []⟩] else []) = _
    simp only [List.isEmpty_nil, if_true]
    simp only [ppStatements, ppStatement_placeholder]
  · intro oracle input r h
    obtain ⟨raw, rfl⟩ := generate_ok_form oracle input r h
    exact postProcess_statements_ne_nil _ input

/-- Witness for C10: the empty analysis post-processes to exactly the
placeholder statement, and the fallback result delivered by the pipeline
has a non-empty statements list. -/
theorem spec_C10_nonempty_statements_witness :
    (postProcess aEmpty inputW).statements = [⟨.fin 1, "unknown", []⟩] ∧
    resultW.statements ≠ [] :=
  ⟨spec_C10_nonempty_statements.2.1 aEmpty inputW (by decide),
   spec_C10_nonempty_statements.2.2 oracleW inputW resultW (by decide)⟩

end UpscaiPrelims
